import Mathlib

/-!
Verification of the crosswalk simulator.

The simulator is embedded shallowly: real-valued quantities become rationals
(`ℚ`), Python float `%` becomes `fmod` below, pedestrian/traffic-light/map
classes become structures, and every call of `random.uniform` or
`random.choice` reads one value from an explicit oracle record, so that all
theorems quantify over every possible realization of the randomness.

Python `attr = arg or self.random_attr()` keeps `arg` only when it is truthy;
`None` and `0` both fall back to the sampler.  This is embedded by `pyOr`
acting on `Option ℚ`.
-/

/-- The two crossing directions of the grid, the keys of the Python
`other_direction` dictionary. -/
inductive Axis
  | x
  | y
deriving DecidableEq

/-- The static `other_direction` mapping of the source. -/
def other_direction : Axis → Axis
  | Axis.x => Axis.y
  | Axis.y => Axis.x

/-- The four sidewalk corner names used by the `city_map` class. -/
inductive Corner
  | upper_left
  | upper_right
  | lower_left
  | lower_right
deriving DecidableEq

/-- The four-state `end_reached` flag of `city_map`: Python `False`, the
strings `x` and `y`, and Python `True`. -/
inductive EndReached
  | no
  | xd
  | yd
  | both
deriving DecidableEq

/-- The `end_reached` value recording a freshly reached boundary in
the given direction. -/
def axisFlag : Axis → EndReached
  | Axis.x => EndReached.xd
  | Axis.y => EndReached.yd

/-- Python float modulo: `a % b = a - b * floor (a / b)`, which for `b > 0`
lands in `[0, b)` for every `a`. -/
def fmod (a b : ℚ) : ℚ := a - b * ⌊a / b⌋

theorem fmod_eq_fract (a b : ℚ) (hb : b ≠ 0) : fmod a b = b * Int.fract (a / b) := by
  unfold fmod Int.fract
  rw [mul_sub, mul_div_cancel₀ a hb]

theorem fmod_nonneg (a b : ℚ) (hb : 0 < b) : 0 ≤ fmod a b := by
  rw [fmod_eq_fract a b hb.ne']
  exact mul_nonneg hb.le (Int.fract_nonneg _)

theorem fmod_lt (a b : ℚ) (hb : 0 < b) : fmod a b < b := by
  rw [fmod_eq_fract a b hb.ne']
  calc b * Int.fract (a / b) < b * 1 :=
        (mul_lt_mul_left hb).mpr (Int.fract_lt_one _)
    _ = b := mul_one b

/-- Python `arg or sampler()`: a `None` or zero (falsy) argument falls back
to the sampled value, any other explicit value is kept. -/
def pyOr (arg : Option ℚ) (sample : ℚ) : ℚ :=
  match arg with
  | some v => if v = 0 then sample else v
  | none => sample

theorem pyOr_none (s : ℚ) : pyOr none s = s := rfl

theorem pyOr_some (v s : ℚ) (hv : v ≠ 0) : pyOr (some v) s = v := by
  simp [pyOr, hv]

/-- One bundle of `random.uniform` draws consumed by the `traffic_light`
constructor: two crosswalk lengths, two signal durations, one initial state. -/
structure LightRand where
  xlen : ℚ
  ylen : ℚ
  xdur : ℚ
  ydur : ℚ
  istate : ℚ
deriving DecidableEq

/-- The `traffic_light` class: crosswalk lengths, phase durations, the
current `state` in `[0, 2)` and the `initial_cycle_time` offset derived from
the initial state. -/
structure traffic_light where
  x_length : ℚ
  y_length : ℚ
  x_signal_duration : ℚ
  y_signal_duration : ℚ
  state : ℚ
  initial_cycle_time : ℚ
deriving DecidableEq

/-- `traffic_light.__init__`: each attribute is the explicit argument if
truthy, else a sampled value; `set_initial_time_offset` is inlined at the
end exactly as the constructor calls it. -/
def traffic_light.init (x_length y_length x_signal_duration y_signal_duration
    initial_state : Option ℚ) (r : LightRand) : traffic_light :=
  let xl := pyOr x_length r.xlen
  let yl := pyOr y_length r.ylen
  let xd := pyOr x_signal_duration r.xdur
  let yd := pyOr y_signal_duration r.ydur
  let st := pyOr initial_state r.istate
  { x_length := xl
    y_length := yl
    x_signal_duration := xd
    y_signal_duration := yd
    state := st
    initial_cycle_time := if st < 1 then xd * st else xd + yd * (st - 1) }

/-- `traffic_light.set_state`: recomputes `state` from the absolute time. -/
def traffic_light.set_state (l : traffic_light) (time : ℚ) : traffic_light :=
  let mid_cycle_time :=
    fmod (time + l.initial_cycle_time) (l.x_signal_duration + l.y_signal_duration)
  if mid_cycle_time < l.x_signal_duration then
    { l with state := mid_cycle_time / l.x_signal_duration }
  else
    { l with state := 1 + (mid_cycle_time - l.x_signal_duration) / l.y_signal_duration }

/-- `traffic_light.time_to_cross`. -/
def traffic_light.time_to_cross (l : traffic_light) (direction : Axis) (velocity : ℚ) : ℚ :=
  match direction with
  | Axis.x => l.x_length / velocity
  | Axis.y => l.y_length / velocity

/-- `traffic_light.current_crossing_direction`: `x` when `0 ≤ state < 1`,
else `y`. -/
def traffic_light.current_crossing_direction (l : traffic_light) : Axis :=
  if 0 ≤ l.state ∧ l.state < 1 then Axis.x else Axis.y

/-- `traffic_light.time_until_switch_directions`. -/
def traffic_light.time_until_switch_directions (l : traffic_light) : ℚ :=
  let signal_duration :=
    match l.current_crossing_direction with
    | Axis.x => l.x_signal_duration
    | Axis.y => l.y_signal_duration
  (1 - fmod l.state 1) * signal_duration

/-- `traffic_light.time_until_switch_directions_twice`. -/
def traffic_light.time_until_switch_directions_twice (l : traffic_light) : ℚ :=
  match l.current_crossing_direction with
  | Axis.x => l.time_until_switch_directions + l.y_signal_duration
  | Axis.y => l.time_until_switch_directions + l.x_signal_duration

/-- `traffic_light.enough_time_to_cross`. -/
def traffic_light.enough_time_to_cross (l : traffic_light) (direction : Axis) (velocity : ℚ) :
    Prop :=
  l.time_to_cross direction velocity ≤ l.time_until_switch_directions

instance (l : traffic_light) (d : Axis) (v : ℚ) : Decidable (l.enough_time_to_cross d v) := by
  unfold traffic_light.enough_time_to_cross
  infer_instance

/-- `traffic_light.time_until_can_cross`. -/
def traffic_light.time_until_can_cross (l : traffic_light) (direction : Axis) (velocity : ℚ) :
    ℚ :=
  if l.current_crossing_direction = direction then
    if l.enough_time_to_cross direction velocity then 0
    else l.time_until_switch_directions_twice
  else
    l.time_until_switch_directions

theorem time_until_switch_directions_pos (l : traffic_light)
    (hx : 0 < l.x_signal_duration) (hy : 0 < l.y_signal_duration) :
    0 < l.time_until_switch_directions := by
  have hfrac : fmod l.state 1 < 1 := fmod_lt l.state 1 one_pos
  have h1 : 0 < 1 - fmod l.state 1 := by linarith
  unfold traffic_light.time_until_switch_directions
  cases h : l.current_crossing_direction <;> simp only [h] <;> positivity

theorem time_until_switch_directions_twice_pos (l : traffic_light)
    (hx : 0 < l.x_signal_duration) (hy : 0 < l.y_signal_duration) :
    0 < l.time_until_switch_directions_twice := by
  have h1 := time_until_switch_directions_pos l hx hy
  unfold traffic_light.time_until_switch_directions_twice
  cases h : l.current_crossing_direction <;> simp only [h] <;> linarith

/-- `time_until_can_cross` is never negative whenever both durations are
positive (irrespective of the stored `state`). -/
theorem time_until_can_cross_nonneg (l : traffic_light) (d : Axis) (v : ℚ)
    (hx : 0 < l.x_signal_duration) (hy : 0 < l.y_signal_duration) :
    0 ≤ l.time_until_can_cross d v := by
  unfold traffic_light.time_until_can_cross
  split
  · split
    · exact le_refl 0
    · exact (time_until_switch_directions_twice_pos l hx hy).le
  · exact (time_until_switch_directions_pos l hx hy).le

/-- C1: for a signal with positive phase durations and positive velocity,
`time_until_can_cross` returns 0 when the requested direction is currently
crossable with enough remaining time, `time_until_switch_directions_twice`
when the direction matches but the crossing does not fit in the remaining
window, and `time_until_switch_directions` when the direction is not
currently crossable; the two non-zero branches are strictly positive, so the
result is 0 exactly in the crossable case. -/
theorem time_until_can_cross_spec (l : traffic_light) (d : Axis) (v : ℚ)
    (hx : 0 < l.x_signal_duration) (hy : 0 < l.y_signal_duration) (hv : 0 < v) :
    (l.current_crossing_direction = d → l.enough_time_to_cross d v →
        l.time_until_can_cross d v = 0)
    ∧ (l.current_crossing_direction = d → ¬ l.enough_time_to_cross d v →
        l.time_until_can_cross d v = l.time_until_switch_directions_twice
          ∧ 0 < l.time_until_can_cross d v)
    ∧ (l.current_crossing_direction ≠ d →
        l.time_until_can_cross d v = l.time_until_switch_directions
          ∧ 0 < l.time_until_can_cross d v)
    ∧ (l.time_until_can_cross d v = 0 ↔
        l.current_crossing_direction = d ∧ l.enough_time_to_cross d v) := by
  have htus := time_until_switch_directions_pos l hx hy
  have htus2 := time_until_switch_directions_twice_pos l hx hy
  refine ⟨?_, ?_, ?_, ?_⟩
  · intro h1 h2
    simp [traffic_light.time_until_can_cross, h1, h2]
  · intro h1 h2
    constructor <;> simp [traffic_light.time_until_can_cross, h1, h2] <;> linarith
  · intro h1
    constructor <;> simp [traffic_light.time_until_can_cross, h1] <;> linarith
  · constructor
    · intro h0
      by_contra hc
      rw [Classical.not_and_iff_or_not_not] at hc
      rcases hc with hc | hc
      · rcases eq_or_ne l.current_crossing_direction d with he | he
        · exact absurd he hc
        · rw [traffic_light.time_until_can_cross, if_neg he] at h0
          linarith [h0 ▸ htus]
      · by_cases he : l.current_crossing_direction = d
        · rw [traffic_light.time_until_can_cross, if_pos he, if_neg hc] at h0
          linarith [h0 ▸ htus2]
        · rw [traffic_light.time_until_can_cross, if_neg he] at h0
          linarith [h0 ▸ htus]
    · intro ⟨h1, h2⟩
      simp [traffic_light.time_until_can_cross, h1, h2]

/-- C1 witness: the scenario of the source's unit test,
`traffic_light(3, 5, 7, 11, initial_state=0.5)`. -/
theorem time_until_can_cross_spec_witness :
    ((0 : ℚ) < 7 ∧ (0 : ℚ) < 11 ∧ (0 : ℚ) < 1)
    ∧ (((⟨3, 5, 7, 11, 1/2, 7/2⟩ : traffic_light).current_crossing_direction = Axis.y →
          (⟨3, 5, 7, 11, 1/2, 7/2⟩ : traffic_light).enough_time_to_cross Axis.y 1 →
          (⟨3, 5, 7, 11, 1/2, 7/2⟩ : traffic_light).time_until_can_cross Axis.y 1 = 0)
       ∧ ((⟨3, 5, 7, 11, 1/2, 7/2⟩ : traffic_light).current_crossing_direction = Axis.y →
          ¬ (⟨3, 5, 7, 11, 1/2, 7/2⟩ : traffic_light).enough_time_to_cross Axis.y 1 →
          (⟨3, 5, 7, 11, 1/2, 7/2⟩ : traffic_light).time_until_can_cross Axis.y 1 =
            (⟨3, 5, 7, 11, 1/2, 7/2⟩ : traffic_light).time_until_switch_directions_twice
          ∧ 0 < (⟨3, 5, 7, 11, 1/2, 7/2⟩ : traffic_light).time_until_can_cross Axis.y 1)
       ∧ ((⟨3, 5, 7, 11, 1/2, 7/2⟩ : traffic_light).current_crossing_direction ≠ Axis.y →
          (⟨3, 5, 7, 11, 1/2, 7/2⟩ : traffic_light).time_until_can_cross Axis.y 1 =
            (⟨3, 5, 7, 11, 1/2, 7/2⟩ : traffic_light).time_until_switch_directions
          ∧ 0 < (⟨3, 5, 7, 11, 1/2, 7/2⟩ : traffic_light).time_until_can_cross Axis.y 1)
       ∧ ((⟨3, 5, 7, 11, 1/2, 7/2⟩ : traffic_light).time_until_can_cross Axis.y 1 = 0 ↔
          (⟨3, 5, 7, 11, 1/2, 7/2⟩ : traffic_light).current_crossing_direction = Axis.y
          ∧ (⟨3, 5, 7, 11, 1/2, 7/2⟩ : traffic_light).enough_time_to_cross Axis.y 1)) :=
  ⟨⟨by norm_num, by norm_num, by norm_num⟩,
    time_until_can_cross_spec ⟨3, 5, 7, 11, 1/2, 7/2⟩ Axis.y 1
      (by norm_num) (by norm_num) (by norm_num)⟩

/-- C2: for positive phase durations and any non-negative time, the state
computed by `set_state` lies in `[0, 2)`, in `[0, 1)` when the point reached
inside the cycle falls in the x phase and in `[1, 2)` when it falls in the y
phase. -/
theorem set_state_phase_bounds (l : traffic_light) (t : ℚ)
    (hx : 0 < l.x_signal_duration) (hy : 0 < l.y_signal_duration) (ht : 0 ≤ t) :
    0 ≤ (l.set_state t).state ∧ (l.set_state t).state < 2
    ∧ (fmod (t + l.initial_cycle_time) (l.x_signal_duration + l.y_signal_duration) <
          l.x_signal_duration →
        (l.set_state t).state < 1)
    ∧ (l.x_signal_duration ≤
          fmod (t + l.initial_cycle_time) (l.x_signal_duration + l.y_signal_duration) →
        1 ≤ (l.set_state t).state) := by
  have hsum : 0 < l.x_signal_duration + l.y_signal_duration := by linarith
  have h0 : 0 ≤ fmod (t + l.initial_cycle_time) (l.x_signal_duration + l.y_signal_duration) :=
    fmod_nonneg _ _ hsum
  have h1 : fmod (t + l.initial_cycle_time) (l.x_signal_duration + l.y_signal_duration) <
      l.x_signal_duration + l.y_signal_duration := fmod_lt _ _ hsum
  by_cases hc : fmod (t + l.initial_cycle_time) (l.x_signal_duration + l.y_signal_duration) <
      l.x_signal_duration
  · have hstate : (l.set_state t).state =
        fmod (t + l.initial_cycle_time) (l.x_signal_duration + l.y_signal_duration) /
          l.x_signal_duration := by
      simp [traffic_light.set_state, hc]
    have hlt1 : (l.set_state t).state < 1 := by
      rw [hstate]
      exact (div_lt_one hx).mpr hc
    refine ⟨by rw [hstate]; positivity, by linarith, fun _ => hlt1, fun hle => ?_⟩
    linarith
  · push_neg at hc
    have hstate : (l.set_state t).state = 1 +
        (fmod (t + l.initial_cycle_time) (l.x_signal_duration + l.y_signal_duration) -
          l.x_signal_duration) / l.y_signal_duration := by
      simp [traffic_light.set_state, not_lt.mpr hc]
    have hq0 : 0 ≤ (fmod (t + l.initial_cycle_time)
        (l.x_signal_duration + l.y_signal_duration) - l.x_signal_duration) /
        l.y_signal_duration := by
      apply div_nonneg _ hy.le
      linarith
    have hq1 : (fmod (t + l.initial_cycle_time)
        (l.x_signal_duration + l.y_signal_duration) - l.x_signal_duration) /
        l.y_signal_duration < 1 := by
      rw [div_lt_one hy]
      linarith
    refine ⟨by rw [hstate]; linarith, by rw [hstate]; linarith, fun hltc => ?_,
      fun _ => by rw [hstate]; linarith⟩
    linarith

/-- C2 witness: the test light with durations 7 and 11 at time 18. -/
theorem set_state_phase_bounds_witness :
    ((0 : ℚ) < 7 ∧ (0 : ℚ) < 11 ∧ (0 : ℚ) ≤ 18)
    ∧ (0 ≤ ((⟨3, 5, 7, 11, 1/2, 7/2⟩ : traffic_light).set_state 18).state
      ∧ ((⟨3, 5, 7, 11, 1/2, 7/2⟩ : traffic_light).set_state 18).state < 2
      ∧ (fmod ((18 : ℚ) + (7/2)) (7 + 11) < 7 →
          ((⟨3, 5, 7, 11, 1/2, 7/2⟩ : traffic_light).set_state 18).state < 1)
      ∧ ((7 : ℚ) ≤ fmod ((18 : ℚ) + (7/2)) (7 + 11) →
          1 ≤ ((⟨3, 5, 7, 11, 1/2, 7/2⟩ : traffic_light).set_state 18).state)) :=
  ⟨⟨by norm_num, by norm_num, by norm_num⟩,
    set_state_phase_bounds ⟨3, 5, 7, 11, 1/2, 7/2⟩ 18 (by norm_num) (by norm_num) (by norm_num)⟩

/-- One bundle of draws for a `sidewalk_block` constructor. -/
structure BlockRand where
  sampX : ℚ
  sampY : ℚ
deriving DecidableEq

/-- The `sidewalk_block` class. -/
structure sidewalk_block where
  x_length : ℚ
  y_length : ℚ
deriving DecidableEq

/-- `sidewalk_block.__init__` with the Python `or` defaulting. -/
def sidewalk_block.init (x_length y_length : Option ℚ) (r : BlockRand) : sidewalk_block :=
  { x_length := pyOr x_length r.sampX
    y_length := pyOr y_length r.sampY }

/-- `sidewalk_block.time_to_cross`. -/
def sidewalk_block.time_to_cross (b : sidewalk_block) (direction : Axis) (velocity : ℚ) : ℚ :=
  match direction with
  | Axis.x => b.x_length / velocity
  | Axis.y => b.y_length / velocity

/-- One bundle of draws for a `pedestrian` constructor. -/
structure PedRand where
  vel : ℚ
  cwt : ℚ
deriving DecidableEq

/-- The `pedestrian` class. -/
structure pedestrian where
  velocity : ℚ
  choice_wait_time : ℚ
deriving DecidableEq

/-- `pedestrian.__init__` with the Python `or` defaulting. -/
def pedestrian.init (velocity choice_wait_time : Option ℚ) (r : PedRand) : pedestrian :=
  { velocity := pyOr velocity r.vel
    choice_wait_time := pyOr choice_wait_time r.cwt }

/-- `pedestrian.would_choose_to_wait_for_light`. -/
def pedestrian.would_choose_to_wait_for_light (p : pedestrian) (wait_time : ℚ) : Prop :=
  wait_time ≤ p.choice_wait_time

instance (p : pedestrian) (w : ℚ) : Decidable (p.would_choose_to_wait_for_light w) := by
  unfold pedestrian.would_choose_to_wait_for_light
  infer_instance

/-- One bundle of draws for a `city_map` constructor (the two grid lengths). -/
structure GridRand where
  glx : ℚ
  gly : ℚ
deriving DecidableEq

/-- The `city_map` class: grid lengths, grid position counters, the walker's
corner, the `end_reached` flag, the current sidewalk block and the four
optional traffic-light slots. -/
structure city_map where
  length_x : ℚ
  length_y : ℚ
  grid_position_x : ℕ
  grid_position_y : ℕ
  sidewalk_position : Corner
  end_reached : EndReached
  sidewalk_segment : sidewalk_block
  seg_ul : Option traffic_light
  seg_ur : Option traffic_light
  seg_ll : Option traffic_light
  seg_lr : Option traffic_light
deriving DecidableEq

/-- `city_map.__init__` with the Python `or` defaulting. -/
def city_map.init (x_length y_length : Option ℚ) (gr : GridRand) (br : BlockRand) : city_map :=
  { length_x := pyOr x_length gr.glx
    length_y := pyOr y_length gr.gly
    grid_position_x := 1
    grid_position_y := 1
    sidewalk_position := Corner.upper_left
    end_reached := EndReached.no
    sidewalk_segment := sidewalk_block.init none none br
    seg_ul := none
    seg_ur := none
    seg_ll := none
    seg_lr := none }

/-- `self.grid_position[direction]`. -/
def city_map.grid_position (m : city_map) : Axis → ℕ
  | Axis.x => m.grid_position_x
  | Axis.y => m.grid_position_y

/-- Read the light slot at a corner (`self.traffic_light_segments[corner]`). -/
def city_map.segGet (m : city_map) : Corner → Option traffic_light
  | Corner.upper_left => m.seg_ul
  | Corner.upper_right => m.seg_ur
  | Corner.lower_left => m.seg_ll
  | Corner.lower_right => m.seg_lr

/-- Write the light slot at a corner. -/
def city_map.segSet (m : city_map) (c : Corner) (l : Option traffic_light) : city_map :=
  match c with
  | Corner.upper_left => { m with seg_ul := l }
  | Corner.upper_right => { m with seg_ur := l }
  | Corner.lower_left => { m with seg_ll := l }
  | Corner.lower_right => { m with seg_lr := l }

/-- The sidewalk-position update of `new_sidewalk_block`: from `upper_right`
or `lower_left` the corner becomes `upper_left` regardless of the direction;
every other corner (the source's final `else`, written for `lower_right`)
moves to `lower_left` on an x advance and to `upper_right` on a y advance. -/
def rotate_corner (c : Corner) (direction : Axis) : Corner :=
  match c with
  | Corner.upper_right => Corner.upper_left
  | Corner.lower_left => Corner.upper_left
  | _ =>
    match direction with
    | Axis.x => Corner.lower_left
    | Axis.y => Corner.upper_right

/-- `city_map.new_sidewalk_block`: build the next block (matching the
perpendicular length of the block being left), bump the grid position and
the `end_reached` flag, rotate the corner, and shift the light slots that
stay adjacent to the new block. -/
def city_map.new_sidewalk_block (m : city_map) (direction : Axis) (br : BlockRand) : city_map :=
  let seg :=
    match direction with
    | Axis.x => sidewalk_block.init none (some m.sidewalk_segment.y_length) br
    | Axis.y => sidewalk_block.init (some m.sidewalk_segment.x_length) none br
  let px := match direction with | Axis.x => m.grid_position_x + 1 | Axis.y => m.grid_position_x
  let py := match direction with | Axis.x => m.grid_position_y | Axis.y => m.grid_position_y + 1
  let pos := match direction with | Axis.x => px | Axis.y => py
  let len := match direction with | Axis.x => m.length_x | Axis.y => m.length_y
  let er :=
    if len ≤ (pos : ℚ) then
      if m.end_reached = EndReached.no ∨ m.end_reached = axisFlag direction then
        axisFlag direction
      else EndReached.both
    else m.end_reached
  let sul := match direction with | Axis.x => m.seg_ur | Axis.y => m.seg_ll
  let sur := match direction with | Axis.x => none | Axis.y => m.seg_lr
  let sll := match direction with | Axis.x => m.seg_lr | Axis.y => none
  { length_x := m.length_x
    length_y := m.length_y
    grid_position_x := px
    grid_position_y := py
    sidewalk_position := rotate_corner m.sidewalk_position direction
    end_reached := er
    sidewalk_segment := seg
    seg_ul := sul
    seg_ur := sur
    seg_ll := sll
    seg_lr := none }

/-- The already-materialized neighbor whose `x_length` the current corner
would copy (`lower_right ↔ upper_right`, `lower_left ↔ upper_left`). -/
def city_map.xEdgeNeighbor (m : city_map) : Option traffic_light :=
  match m.sidewalk_position with
  | Corner.lower_right => m.seg_ur
  | Corner.upper_right => m.seg_lr
  | Corner.lower_left => m.seg_ul
  | Corner.upper_left => m.seg_ll

/-- The already-materialized neighbor whose `y_length` the current corner
would copy (`lower_right ↔ lower_left`, `upper_right ↔ upper_left`). -/
def city_map.yEdgeNeighbor (m : city_map) : Option traffic_light :=
  match m.sidewalk_position with
  | Corner.lower_right => m.seg_ll
  | Corner.upper_right => m.seg_ul
  | Corner.lower_left => m.seg_lr
  | Corner.upper_left => m.seg_ur

/-- `city_map.get_current_traffic_light`: return the cached light at the
current corner, or materialize one copying each length from the
corresponding grid-aligned neighbor when it exists. -/
def city_map.get_current_traffic_light (m : city_map) (r : LightRand) :
    traffic_light × city_map :=
  match m.segGet m.sidewalk_position with
  | some l => (l, m)
  | none =>
    let l := traffic_light.init
      (Option.map (fun t => t.x_length) m.xEdgeNeighbor)
      (Option.map (fun t => t.y_length) m.yEdgeNeighbor)
      none none none r
    (l, m.segSet m.sidewalk_position (some l))

/-- C4: the corner rotation performed by `new_sidewalk_block` is the total
function `rotate_corner`; every result is one of the four corner values, and
the rotation table holds: from `upper_right` or `lower_left` the corner
becomes `upper_left` regardless of axis, and from `lower_right` an x advance
yields `lower_left` while a y advance yields `upper_right`. -/
theorem corner_rotation_total :
    (∀ (m : city_map) (d : Axis) (br : BlockRand),
        (m.new_sidewalk_block d br).sidewalk_position = rotate_corner m.sidewalk_position d)
    ∧ (∀ (c : Corner) (d : Axis),
        rotate_corner c d = Corner.upper_left ∨ rotate_corner c d = Corner.upper_right
        ∨ rotate_corner c d = Corner.lower_left ∨ rotate_corner c d = Corner.lower_right)
    ∧ (∀ d : Axis, rotate_corner Corner.upper_right d = Corner.upper_left)
    ∧ (∀ d : Axis, rotate_corner Corner.lower_left d = Corner.upper_left)
    ∧ rotate_corner Corner.lower_right Axis.x = Corner.lower_left
    ∧ rotate_corner Corner.lower_right Axis.y = Corner.upper_right := by
  refine ⟨fun m d br => rfl, fun c d => ?_, fun d => ?_, fun d => ?_, rfl, rfl⟩
  · cases c <;> cases d <;> simp [rotate_corner]
  · cases d <;> rfl
  · cases d <;> rfl

/-- C5: the block built by `new_sidewalk_block` keeps the predecessor
block's length on the axis perpendicular to the advance (positive, hence
truthy, so the Python `or` keeps it) and takes a freshly sampled length
along the advance axis. -/
theorem advance_block_continuity (m : city_map) (br : BlockRand)
    (hx : 0 < m.sidewalk_segment.x_length) (hy : 0 < m.sidewalk_segment.y_length) :
    ((m.new_sidewalk_block Axis.x br).sidewalk_segment.y_length = m.sidewalk_segment.y_length
      ∧ (m.new_sidewalk_block Axis.x br).sidewalk_segment.x_length = br.sampX)
    ∧ ((m.new_sidewalk_block Axis.y br).sidewalk_segment.x_length = m.sidewalk_segment.x_length
      ∧ (m.new_sidewalk_block Axis.y br).sidewalk_segment.y_length = br.sampY) := by
  refine ⟨⟨?_, rfl⟩, ⟨?_, rfl⟩⟩
  · show pyOr (some m.sidewalk_segment.y_length) br.sampY = m.sidewalk_segment.y_length
    exact pyOr_some _ _ hy.ne'
  · show pyOr (some m.sidewalk_segment.x_length) br.sampX = m.sidewalk_segment.x_length
    exact pyOr_some _ _ hx.ne'

/-- C5 witness: a concrete map whose current block is `3 × 5`. -/
theorem advance_block_continuity_witness :
    ((0 : ℚ) < 3 ∧ (0 : ℚ) < 5)
    ∧ ((((⟨10, 10, 1, 1, Corner.upper_left, EndReached.no, ⟨3, 5⟩, none, none, none, none⟩ :
            city_map).new_sidewalk_block Axis.x ⟨7, 13⟩).sidewalk_segment.y_length = 5
        ∧ (((⟨10, 10, 1, 1, Corner.upper_left, EndReached.no, ⟨3, 5⟩, none, none, none, none⟩ :
            city_map)).new_sidewalk_block Axis.x ⟨7, 13⟩).sidewalk_segment.x_length = 7)
      ∧ ((((⟨10, 10, 1, 1, Corner.upper_left, EndReached.no, ⟨3, 5⟩, none, none, none, none⟩ :
            city_map)).new_sidewalk_block Axis.y ⟨7, 13⟩).sidewalk_segment.x_length = 3
        ∧ (((⟨10, 10, 1, 1, Corner.upper_left, EndReached.no, ⟨3, 5⟩, none, none, none, none⟩ :
            city_map)).new_sidewalk_block Axis.y ⟨7, 13⟩).sidewalk_segment.y_length = 13)) :=
  ⟨⟨by norm_num, by norm_num⟩,
    advance_block_continuity
      ⟨10, 10, 1, 1, Corner.upper_left, EndReached.no, ⟨3, 5⟩, none, none, none, none⟩
      ⟨7, 13⟩ (by norm_num) (by norm_num)⟩

/-- C7 counterexample: the claim fails at the explicit value 0, which is
inside the configured ranges (walker patience lies in `[0, 250]` and a
signal's time-zero phase lies in `[0, 2)`).  Because Python evaluates
`arg or self.random_…()` and `0` is falsy, constructing
`pedestrian(choice_wait_time=0)` samples the patience (here the sampler
yields 7), and constructing `traffic_light(initial_state=0)` samples the
phase (here the sampler yields 3/2): neither attribute equals the explicit
value that was passed. -/
theorem override_zero_counterexample :
    (pedestrian.init none (some 0) ⟨3, 7⟩).choice_wait_time ≠ 0
    ∧ (traffic_light.init none none none none (some 0) ⟨1, 1, 1, 1, 3/2⟩).state ≠ 0 := by
  constructor
  · show pyOr (some 0) (7 : ℚ) ≠ 0
    norm_num [pyOr]
  · show pyOr (some 0) (3/2 : ℚ) ≠ 0
    norm_num [pyOr]

/-- C7 amended: passing an explicit *non-zero* value for any sampled
attribute of `traffic_light`, `sidewalk_block`, `pedestrian` or `city_map`
bypasses the sampler and the constructed attribute equals the value exactly;
an explicit 0 is falsy in Python and falls back to the sampler instead. -/
theorem override_nonzero_bypasses_sampler (v : ℚ) (hv : v ≠ 0) :
    (∀ (a b c d : Option ℚ) (r : LightRand),
        (traffic_light.init (some v) a b c d r).x_length = v
        ∧ (traffic_light.init a (some v) b c d r).y_length = v
        ∧ (traffic_light.init a b (some v) c d r).x_signal_duration = v
        ∧ (traffic_light.init a b c (some v) d r).y_signal_duration = v
        ∧ (traffic_light.init a b c d (some v) r).state = v)
    ∧ (∀ (a : Option ℚ) (r : BlockRand),
        (sidewalk_block.init (some v) a r).x_length = v
        ∧ (sidewalk_block.init a (some v) r).y_length = v)
    ∧ (∀ (a : Option ℚ) (r : PedRand),
        (pedestrian.init (some v) a r).velocity = v
        ∧ (pedestrian.init a (some v) r).choice_wait_time = v)
    ∧ (∀ (a : Option ℚ) (gr : GridRand) (br : BlockRand),
        (city_map.init (some v) a gr br).length_x = v
        ∧ (city_map.init a (some v) gr br).length_y = v)
    ∧ (∀ (a : Option ℚ) (r : PedRand),
        (pedestrian.init a (some 0) r).choice_wait_time = r.cwt)
    ∧ (∀ (a b c d : Option ℚ) (r : LightRand),
        (traffic_light.init a b c d (some 0) r).state = r.istate) := by
  have hp := pyOr_some v
  refine ⟨fun a b c d r => ⟨hp _ hv, hp _ hv, hp _ hv, hp _ hv, hp _ hv⟩,
    fun a r => ⟨hp _ hv, hp _ hv⟩,
    fun a r => ⟨hp _ hv, hp _ hv⟩,
    fun a gr br => ⟨hp _ hv, hp _ hv⟩,
    fun a r => by simp [pedestrian.init, pyOr],
    fun a b c d r => by simp [traffic_light.init, pyOr]⟩

/-- C7 amended witness: the non-zero value 5 used by the source's own
`test_pedestrian` scenario. -/
theorem override_nonzero_bypasses_sampler_witness :
    ((5 : ℚ) ≠ 0)
    ∧ ((pedestrian.init (some 5) none ⟨3, 7⟩).velocity = 5
      ∧ (pedestrian.init none (some 5) ⟨3, 7⟩).choice_wait_time = 5) :=
  ⟨by norm_num,
    (override_nonzero_bypasses_sampler 5 (by norm_num)).2.2.1 none ⟨3, 7⟩⟩

/-- The randomness one call of `simulation_step` can consume: the
`random.choice` between the two axes at `upper_left`, the draws for a light
materialized by the step's first `get_current_traffic_light`, the draws for
the (always cached, hence unused) lookup inside `cross_traffic_light`, and
the fresh side length of the block built by `new_sidewalk_block`. -/
structure StepRand where
  choice : Axis
  light : LightRand
  light2 : LightRand
  block : BlockRand
deriving DecidableEq

/-- The `simulation` class: one map, one pedestrian, the clock, and the two
cumulative wait statistics. -/
structure simulation where
  city_map : city_map
  pedestrian : pedestrian
  time : ℚ
  cumulative_time_waiting_at_lights : ℚ
  cumulative_lights_waited_at : ℕ
deriving DecidableEq

/-- `simulation.__init__`: fresh map, fresh pedestrian, zeroed clock and
statistics. -/
def simulation.init (gr : GridRand) (br : BlockRand) (pr : PedRand) : simulation :=
  { city_map := city_map.init none none gr br
    pedestrian := pedestrian.init none none pr
    time := 0
    cumulative_time_waiting_at_lights := 0
    cumulative_lights_waited_at := 0 }

/-- `simulation.cross_sidewalk`. -/
def simulation.cross_sidewalk (s : simulation) (direction : Axis) (destination : Corner) :
    simulation :=
  { s with
    time := s.time + s.city_map.sidewalk_segment.time_to_cross direction s.pedestrian.velocity
    city_map := { s.city_map with sidewalk_position := destination } }

/-- `simulation.cross_traffic_light`: add the crossing time of the current
light (already materialized by the calling step, so the lookup is cached),
then advance the map. -/
def simulation.cross_traffic_light (s : simulation) (direction : Axis) (lr : LightRand)
    (br : BlockRand) : simulation :=
  let p := s.city_map.get_current_traffic_light lr
  { s with
    time := s.time + p.1.time_to_cross direction s.pedestrian.velocity
    city_map := p.2.new_sidewalk_block direction br }

/-- `simulation.simulation_step`, dispatching on the current corner.  The
`EndReached.both` cases of the two corner/direction choices are unreachable
(the loop only steps while `end_reached` is not `True`; Python would raise
`KeyError` on `other_direction[True]`) and are given an arbitrary axis. -/
def simulation.simulation_step (s : simulation) (r : StepRand) : simulation :=
  match s.city_map.sidewalk_position with
  | Corner.upper_left =>
    let direction :=
      match s.city_map.end_reached with
      | EndReached.no => r.choice
      | EndReached.xd => Axis.y
      | EndReached.yd => Axis.x
      | EndReached.both => r.choice
    match direction with
    | Axis.x => s.cross_sidewalk Axis.x Corner.upper_right
    | Axis.y => s.cross_sidewalk Axis.y Corner.lower_left
  | Corner.lower_left =>
    if s.city_map.end_reached ≠ EndReached.yd then
      let p := s.city_map.get_current_traffic_light r.light
      let light := p.1.set_state s.time
      let s1 := { s with city_map := p.2.segSet Corner.lower_left (some light) }
      let cross_wait_time := light.time_until_can_cross Axis.y s.pedestrian.velocity
      if s.pedestrian.would_choose_to_wait_for_light cross_wait_time then
        simulation.cross_traffic_light
          { s1 with
            time := s1.time + cross_wait_time
            cumulative_time_waiting_at_lights :=
              s1.cumulative_time_waiting_at_lights + cross_wait_time
            cumulative_lights_waited_at := s1.cumulative_lights_waited_at + 1 }
          Axis.y r.light2 r.block
      else
        s1.cross_sidewalk Axis.x Corner.lower_right
    else
      s.cross_sidewalk Axis.x Corner.lower_right
  | Corner.upper_right =>
    if s.city_map.end_reached ≠ EndReached.xd then
      let p := s.city_map.get_current_traffic_light r.light
      let light := p.1.set_state s.time
      let s1 := { s with city_map := p.2.segSet Corner.upper_right (some light) }
      let cross_wait_time := light.time_until_can_cross Axis.x s.pedestrian.velocity
      if s.pedestrian.would_choose_to_wait_for_light cross_wait_time then
        simulation.cross_traffic_light
          { s1 with
            time := s1.time + cross_wait_time
            cumulative_time_waiting_at_lights :=
              s1.cumulative_time_waiting_at_lights + cross_wait_time
            cumulative_lights_waited_at := s1.cumulative_lights_waited_at + 1 }
          Axis.x r.light2 r.block
      else
        s1.cross_sidewalk Axis.y Corner.lower_right
    else
      s.cross_sidewalk Axis.y Corner.lower_right
  | Corner.lower_right =>
    let p := s.city_map.get_current_traffic_light r.light
    let light := p.1.set_state s.time
    let s1 := { s with city_map := p.2.segSet Corner.lower_right (some light) }
    let cross_wait_time_x := light.time_until_can_cross Axis.x s.pedestrian.velocity
    let cross_wait_time_y := light.time_until_can_cross Axis.y s.pedestrian.velocity
    let direction :=
      match s.city_map.end_reached with
      | EndReached.xd => Axis.y
      | EndReached.yd => Axis.x
      | EndReached.both => Axis.x
      | EndReached.no =>
        if cross_wait_time_x ≤ cross_wait_time_y then Axis.x else Axis.y
    let cross_wait_time :=
      match direction with
      | Axis.x => cross_wait_time_x
      | Axis.y => cross_wait_time_y
    simulation.cross_traffic_light
      { s1 with
        time := s1.time + cross_wait_time
        cumulative_time_waiting_at_lights :=
          s1.cumulative_time_waiting_at_lights + cross_wait_time
        cumulative_lights_waited_at := s1.cumulative_lights_waited_at + 1 }
      direction r.light2 r.block

/-- `simulation.simulate` as a fueled loop: while `end_reached` is not
`True`, run one step, consuming one `StepRand` per step. -/
def runWalk (rs : ℕ → StepRand) : ℕ → simulation → simulation
  | 0, s => s
  | Nat.succ n, s =>
    if s.city_map.end_reached = EndReached.both then s
    else runWalk (fun k => rs (k + 1)) n (s.simulation_step (rs 0))

/-- The part of a `city_map` that drives the traversal loop: lengths, grid
positions, `end_reached` and the corner.  Light slots, the block and the
clock are irrelevant to termination. -/
structure GridCore where
  lx : ℚ
  ly : ℚ
  px : ℕ
  py : ℕ
  er : EndReached
  c : Corner
deriving DecidableEq

/-- Project a `city_map` to its traversal core. -/
def city_map.core (m : city_map) : GridCore :=
  ⟨m.length_x, m.length_y, m.grid_position_x, m.grid_position_y,
    m.end_reached, m.sidewalk_position⟩

/-- Whether the x boundary has been recorded by `end_reached`. -/
def xDone : EndReached → Bool
  | EndReached.xd => true
  | EndReached.both => true
  | _ => false

/-- Whether the y boundary has been recorded by `end_reached`. -/
def yDone : EndReached → Bool
  | EndReached.yd => true
  | EndReached.both => true
  | _ => false

/-- Boundary flag of a given axis. -/
def axisDone : Axis → EndReached → Bool
  | Axis.x => xDone
  | Axis.y => yDone

/-- The effect of `new_sidewalk_block` on the traversal core. -/
def advCore (g : GridCore) (d : Axis) : GridCore :=
  let px := match d with | Axis.x => g.px + 1 | Axis.y => g.px
  let py := match d with | Axis.x => g.py | Axis.y => g.py + 1
  let pos := match d with | Axis.x => px | Axis.y => py
  let len := match d with | Axis.x => g.lx | Axis.y => g.ly
  let er :=
    if len ≤ (pos : ℚ) then
      if g.er = EndReached.no ∨ g.er = axisFlag d then axisFlag d else EndReached.both
    else g.er
  ⟨g.lx, g.ly, px, py, er, rotate_corner g.c d⟩

theorem new_sidewalk_block_core (m : city_map) (d : Axis) (br : BlockRand) :
    (m.new_sidewalk_block d br).core = advCore m.core d := by
  cases d <;> rfl

theorem segSet_core (m : city_map) (c : Corner) (ol : Option traffic_light) :
    (m.segSet c ol).core = m.core := by
  cases c <;> rfl

theorem get_current_traffic_light_core (m : city_map) (r : LightRand) :
    (m.get_current_traffic_light r).2.core = m.core := by
  unfold city_map.get_current_traffic_light
  split
  · rfl
  · exact segSet_core _ _ _

theorem cross_traffic_light_core (s : simulation) (d : Axis) (lr : LightRand) (br : BlockRand) :
    (s.cross_traffic_light d lr br).city_map.core = advCore s.city_map.core d := by
  unfold simulation.cross_traffic_light
  show (((s.city_map.get_current_traffic_light lr).2).new_sidewalk_block d br).core = _
  rw [new_sidewalk_block_core, get_current_traffic_light_core]

/-- How many corner moves remain before the next mandatory signal crossing:
2 from `upper_left`, 1 from `lower_left` and `upper_right`, 0 at
`lower_right` where an advance is unconditional. -/
def corner_rank : Corner → ℕ
  | Corner.upper_left => 2
  | Corner.upper_right => 1
  | Corner.lower_left => 1
  | Corner.lower_right => 0

/-- Upper bound on the advances still needed on one axis before its boundary
flag is set: 0 once the flag is set, otherwise at least one and at most
`⌈len⌉ - pos` advances. -/
def need_axis (pos : ℕ) (len : ℚ) (done : Bool) : ℕ :=
  if done then 0 else max 1 (⌈len⌉.toNat - pos)

/-- Remaining advances of a traversal core. -/
def core_needs (g : GridCore) : ℕ :=
  need_axis g.px g.lx (xDone g.er) + need_axis g.py g.ly (yDone g.er)

/-- Termination measure of the traversal loop. -/
def core_measure (g : GridCore) : ℕ := 3 * core_needs g + corner_rank g.c

/-- Termination measure of a simulation state. -/
def walk_measure (s : simulation) : ℕ := core_measure s.city_map.core

theorem need_axis_false_pos (pos : ℕ) (len : ℚ) : 0 < need_axis pos len false := by
  unfold need_axis
  simp

theorem need_axis_miss (pos : ℕ) (len : ℚ) (h : ¬ len ≤ ((pos + 1 : ℕ) : ℚ)) :
    need_axis (pos + 1) len false < need_axis pos len false := by
  push_neg at h
  have h2 : ((pos : ℤ) + 1) < ⌈len⌉ := by
    rw [Int.lt_ceil]
    push_cast
    push_cast at h
    linarith
  have h3 : pos + 2 ≤ ⌈len⌉.toNat := by omega
  unfold need_axis
  simp only [Bool.false_eq_true, if_false]
  omega

theorem corner_rank_le (c : Corner) : corner_rank c ≤ 2 := by
  cases c <;> simp [corner_rank]

theorem advCore_x (g : GridCore) :
    advCore g Axis.x = ⟨g.lx, g.ly, g.px + 1, g.py,
      if g.lx ≤ ((g.px + 1 : ℕ) : ℚ) then
        if g.er = EndReached.no ∨ g.er = EndReached.xd then EndReached.xd else EndReached.both
      else g.er,
      rotate_corner g.c Axis.x⟩ := rfl

theorem advCore_y (g : GridCore) :
    advCore g Axis.y = ⟨g.lx, g.ly, g.px, g.py + 1,
      if g.ly ≤ ((g.py + 1 : ℕ) : ℚ) then
        if g.er = EndReached.no ∨ g.er = EndReached.yd then EndReached.yd else EndReached.both
      else g.er,
      rotate_corner g.c Axis.y⟩ := rfl

theorem xDone_no : xDone EndReached.no = false := rfl

theorem xDone_xd : xDone EndReached.xd = true := rfl

theorem xDone_yd : xDone EndReached.yd = false := rfl

theorem xDone_both : xDone EndReached.both = true := rfl

theorem yDone_no : yDone EndReached.no = false := rfl

theorem yDone_xd : yDone EndReached.xd = false := rfl

theorem yDone_yd : yDone EndReached.yd = true := rfl

theorem yDone_both : yDone EndReached.both = true := rfl

theorem need_axis_done (pos : ℕ) (len : ℚ) : need_axis pos len true = 0 := rfl

theorem core_needs_advance_x (g : GridCore) (hx : xDone g.er = false) :
    core_needs (advCore g Axis.x) < core_needs g := by
  rw [advCore_x]
  unfold core_needs
  have hp := need_axis_false_pos g.px g.lx
  cases her : g.er
  case xd => rw [her] at hx; simp [xDone] at hx
  case both => rw [her] at hx; simp [xDone] at hx
  case no =>
    simp only [her]
    by_cases hhit : g.lx ≤ ((g.px + 1 : ℕ) : ℚ)
    · rw [if_pos hhit, if_pos (Or.inl trivial)]
      simp only [xDone_no, yDone_no, xDone_xd, yDone_xd, need_axis_done]
      omega
    · rw [if_neg hhit]
      have := need_axis_miss g.px g.lx hhit
      simp only [xDone_no, yDone_no]
      omega
  case yd =>
    simp only [her]
    by_cases hhit : g.lx ≤ ((g.px + 1 : ℕ) : ℚ)
    · rw [if_pos hhit, if_neg (by simp)]
      simp only [xDone_yd, yDone_yd, xDone_both, yDone_both, need_axis_done]
      omega
    · rw [if_neg hhit]
      have := need_axis_miss g.px g.lx hhit
      simp only [xDone_yd, yDone_yd]
      omega

theorem core_needs_advance_y (g : GridCore) (hy : yDone g.er = false) :
    core_needs (advCore g Axis.y) < core_needs g := by
  rw [advCore_y]
  unfold core_needs
  have hp := need_axis_false_pos g.py g.ly
  cases her : g.er
  case yd => rw [her] at hy; simp [yDone] at hy
  case both => rw [her] at hy; simp [yDone] at hy
  case no =>
    simp only [her]
    by_cases hhit : g.ly ≤ ((g.py + 1 : ℕ) : ℚ)
    · rw [if_pos hhit, if_pos (Or.inl trivial)]
      simp only [xDone_no, yDone_no, xDone_yd, yDone_yd, need_axis_done]
      omega
    · rw [if_neg hhit]
      have := need_axis_miss g.py g.ly hhit
      simp only [xDone_no, yDone_no]
      omega
  case xd =>
    simp only [her]
    by_cases hhit : g.ly ≤ ((g.py + 1 : ℕ) : ℚ)
    · rw [if_pos hhit, if_neg (by simp)]
      simp only [xDone_xd, yDone_xd, xDone_both, yDone_both, need_axis_done]
      omega
    · rw [if_neg hhit]
      have := need_axis_miss g.py g.ly hhit
      simp only [xDone_xd, yDone_xd]
      omega

theorem core_needs_advance (g : GridCore) (d : Axis) (hd : axisDone d g.er = false) :
    core_needs (advCore g d) < core_needs g := by
  cases d
  · exact core_needs_advance_x g hd
  · exact core_needs_advance_y g hd

theorem core_measure_advance (g : GridCore) (d : Axis) (hd : axisDone d g.er = false) :
    core_measure (advCore g d) < core_measure g := by
  have h1 := core_needs_advance g d hd
  have h2 := corner_rank_le (advCore g d).c
  unfold core_measure
  omega

theorem core_needs_pos (g : GridCore) (h : g.er ≠ EndReached.both) : 0 < core_needs g := by
  unfold core_needs
  cases her : g.er
  case both => exact absurd her h
  case no =>
    have := need_axis_false_pos g.px g.lx
    simp only [xDone]
    omega
  case xd =>
    have := need_axis_false_pos g.py g.ly
    simp only [xDone, yDone]
    omega
  case yd =>
    have := need_axis_false_pos g.px g.lx
    simp only [xDone, yDone]
    omega

theorem cross_sidewalk_core (s : simulation) (d : Axis) (dest : Corner) :
    (s.cross_sidewalk d dest).city_map.core = { s.city_map.core with c := dest } := rfl

/-- Every step taken while `end_reached` is not `True` either moves to a
corner of strictly smaller rank without touching the rest of the traversal
core, or advances the map along an axis whose boundary flag is not yet
set. -/
theorem step_core (s : simulation) (r : StepRand)
    (hend : s.city_map.end_reached ≠ EndReached.both) :
    (∃ c : Corner, corner_rank c < corner_rank s.city_map.core.c
      ∧ (s.simulation_step r).city_map.core = { s.city_map.core with c := c })
    ∨ (∃ d : Axis, axisDone d s.city_map.core.er = false
      ∧ (s.simulation_step r).city_map.core = advCore s.city_map.core d
      ∧ (s.simulation_step r).cumulative_lights_waited_at =
          s.cumulative_lights_waited_at + 1) := by
  have hc : s.city_map.core.er = s.city_map.end_reached := rfl
  cases hsp : s.city_map.sidewalk_position
  case upper_left =>
    have hrank : corner_rank s.city_map.core.c = 2 := by
      show corner_rank s.city_map.sidewalk_position = 2
      rw [hsp]
      rfl
    left
    have hstep : s.simulation_step r =
        (match (match s.city_map.end_reached with
                | EndReached.no => r.choice
                | EndReached.xd => Axis.y
                | EndReached.yd => Axis.x
                | EndReached.both => r.choice) with
          | Axis.x => s.cross_sidewalk Axis.x Corner.upper_right
          | Axis.y => s.cross_sidewalk Axis.y Corner.lower_left) := by
      unfold simulation.simulation_step
      rw [hsp]
    cases hd : (match s.city_map.end_reached with
          | EndReached.no => r.choice
          | EndReached.xd => Axis.y
          | EndReached.yd => Axis.x
          | EndReached.both => r.choice)
    · refine ⟨Corner.upper_right, by rw [hrank]; decide, ?_⟩
      rw [hstep, hd]
      exact cross_sidewalk_core s Axis.x Corner.upper_right
    · refine ⟨Corner.lower_left, by rw [hrank]; decide, ?_⟩
      rw [hstep, hd]
      exact cross_sidewalk_core s Axis.y Corner.lower_left
  case lower_left =>
    have hrank : corner_rank s.city_map.core.c = 1 := by
      show corner_rank s.city_map.sidewalk_position = 1
      rw [hsp]
      rfl
    have hstep : s.simulation_step r =
        (if s.city_map.end_reached ≠ EndReached.yd then
          let p := s.city_map.get_current_traffic_light r.light
          let light := p.1.set_state s.time
          let s1 := { s with city_map := p.2.segSet Corner.lower_left (some light) }
          let cross_wait_time := light.time_until_can_cross Axis.y s.pedestrian.velocity
          if s.pedestrian.would_choose_to_wait_for_light cross_wait_time then
            simulation.cross_traffic_light
              { s1 with
                time := s1.time + cross_wait_time
                cumulative_time_waiting_at_lights :=
                  s1.cumulative_time_waiting_at_lights + cross_wait_time
                cumulative_lights_waited_at := s1.cumulative_lights_waited_at + 1 }
              Axis.y r.light2 r.block
          else
            s1.cross_sidewalk Axis.x Corner.lower_right
        else
          s.cross_sidewalk Axis.x Corner.lower_right) := by
      unfold simulation.simulation_step
      rw [hsp]
    by_cases hyd : s.city_map.end_reached = EndReached.yd
    · left
      refine ⟨Corner.lower_right, by rw [hrank]; decide, ?_⟩
      rw [hstep, if_neg (by simp [hyd])]
      exact cross_sidewalk_core s Axis.x Corner.lower_right
    · rw [hstep, if_pos hyd]
      set p := s.city_map.get_current_traffic_light r.light with hp
      set light := p.1.set_state s.time with hlight
      by_cases hw : s.pedestrian.would_choose_to_wait_for_light
          (light.time_until_can_cross Axis.y s.pedestrian.velocity)
      · right
        refine ⟨Axis.y, ?_, ?_, ?_⟩
        · rw [hc]
          cases her : s.city_map.end_reached <;>
            first
              | rfl
              | exact absurd her hyd
              | exact absurd her hend
        · simp only [if_pos hw]
          rw [cross_traffic_light_core]
          show advCore ((p.2.segSet Corner.lower_left (some light)).core) Axis.y = _
          rw [segSet_core, hp, get_current_traffic_light_core]
        · simp only [if_pos hw]
          rfl
      · left
        refine ⟨Corner.lower_right, by rw [hrank]; decide, ?_⟩
        simp only [if_neg hw]
        rw [cross_sidewalk_core]
        show ({ ((p.2.segSet Corner.lower_left (some light)).core) with
            c := Corner.lower_right } : GridCore) = _
        rw [segSet_core, hp, get_current_traffic_light_core]
  case upper_right =>
    have hrank : corner_rank s.city_map.core.c = 1 := by
      show corner_rank s.city_map.sidewalk_position = 1
      rw [hsp]
      rfl
    have hstep : s.simulation_step r =
        (if s.city_map.end_reached ≠ EndReached.xd then
          let p := s.city_map.get_current_traffic_light r.light
          let light := p.1.set_state s.time
          let s1 := { s with city_map := p.2.segSet Corner.upper_right (some light) }
          let cross_wait_time := light.time_until_can_cross Axis.x s.pedestrian.velocity
          if s.pedestrian.would_choose_to_wait_for_light cross_wait_time then
            simulation.cross_traffic_light
              { s1 with
                time := s1.time + cross_wait_time
                cumulative_time_waiting_at_lights :=
                  s1.cumulative_time_waiting_at_lights + cross_wait_time
                cumulative_lights_waited_at := s1.cumulative_lights_waited_at + 1 }
              Axis.x r.light2 r.block
          else
            s1.cross_sidewalk Axis.y Corner.lower_right
        else
          s.cross_sidewalk Axis.y Corner.lower_right) := by
      unfold simulation.simulation_step
      rw [hsp]
    by_cases hxd : s.city_map.end_reached = EndReached.xd
    · left
      refine ⟨Corner.lower_right, by rw [hrank]; decide, ?_⟩
      rw [hstep, if_neg (by simp [hxd])]
      exact cross_sidewalk_core s Axis.y Corner.lower_right
    · rw [hstep, if_pos hxd]
      set p := s.city_map.get_current_traffic_light r.light with hp
      set light := p.1.set_state s.time with hlight
      by_cases hw : s.pedestrian.would_choose_to_wait_for_light
          (light.time_until_can_cross Axis.x s.pedestrian.velocity)
      · right
        refine ⟨Axis.x, ?_, ?_, ?_⟩
        · rw [hc]
          cases her : s.city_map.end_reached <;>
            first
              | rfl
              | exact absurd her hxd
              | exact absurd her hend
        · simp only [if_pos hw]
          rw [cross_traffic_light_core]
          show advCore ((p.2.segSet Corner.upper_right (some light)).core) Axis.x = _
          rw [segSet_core, hp, get_current_traffic_light_core]
        · simp only [if_pos hw]
          rfl
      · left
        refine ⟨Corner.lower_right, by rw [hrank]; decide, ?_⟩
        simp only [if_neg hw]
        rw [cross_sidewalk_core]
        show ({ ((p.2.segSet Corner.upper_right (some light)).core) with
            c := Corner.lower_right } : GridCore) = _
        rw [segSet_core, hp, get_current_traffic_light_core]
  case lower_right =>
    right
    have hstep : s.simulation_step r =
        (let p := s.city_map.get_current_traffic_light r.light
         let light := p.1.set_state s.time
         let s1 := { s with city_map := p.2.segSet Corner.lower_right (some light) }
         let cross_wait_time_x := light.time_until_can_cross Axis.x s.pedestrian.velocity
         let cross_wait_time_y := light.time_until_can_cross Axis.y s.pedestrian.velocity
         let direction :=
           match s.city_map.end_reached with
           | EndReached.xd => Axis.y
           | EndReached.yd => Axis.x
           | EndReached.both => Axis.x
           | EndReached.no =>
             if cross_wait_time_x ≤ cross_wait_time_y then Axis.x else Axis.y
         let cross_wait_time :=
           match direction with
           | Axis.x => cross_wait_time_x
           | Axis.y => cross_wait_time_y
         simulation.cross_traffic_light
           { s1 with
             time := s1.time + cross_wait_time
             cumulative_time_waiting_at_lights :=
               s1.cumulative_time_waiting_at_lights + cross_wait_time
             cumulative_lights_waited_at := s1.cumulative_lights_waited_at + 1 }
           direction r.light2 r.block) := by
      unfold simulation.simulation_step
      rw [hsp]
    set p := s.city_map.get_current_traffic_light r.light with hp
    set light := p.1.set_state s.time with hlight
    set wx := light.time_until_can_cross Axis.x s.pedestrian.velocity with hwx
    set wy := light.time_until_can_cross Axis.y s.pedestrian.velocity with hwy
    have hcore : ∀ d : Axis,
        (simulation.cross_traffic_light
          { s with
            city_map := p.2.segSet Corner.lower_right (some light)
            time := s.time + (match d with | Axis.x => wx | Axis.y => wy)
            cumulative_time_waiting_at_lights :=
              s.cumulative_time_waiting_at_lights + (match d with | Axis.x => wx | Axis.y => wy)
            cumulative_lights_waited_at := s.cumulative_lights_waited_at + 1 }
          d r.light2 r.block).city_map.core = advCore s.city_map.core d
        ∧ (simulation.cross_traffic_light
          { s with
            city_map := p.2.segSet Corner.lower_right (some light)
            time := s.time + (match d with | Axis.x => wx | Axis.y => wy)
            cumulative_time_waiting_at_lights :=
              s.cumulative_time_waiting_at_lights + (match d with | Axis.x => wx | Axis.y => wy)
            cumulative_lights_waited_at := s.cumulative_lights_waited_at + 1 }
          d r.light2 r.block).cumulative_lights_waited_at =
            s.cumulative_lights_waited_at + 1 := by
      intro d
      constructor
      · rw [cross_traffic_light_core]
        show advCore ((p.2.segSet Corner.lower_right (some light)).core) d = _
        rw [segSet_core, hp, get_current_traffic_light_core]
      · rfl
    cases her : s.city_map.end_reached
    case both => exact absurd her hend
    case xd =>
      refine ⟨Axis.y, by rw [hc, her]; rfl, ?_, ?_⟩ <;> rw [hstep] <;> simp only [her]
      · exact (hcore Axis.y).1
      · exact (hcore Axis.y).2
    case yd =>
      refine ⟨Axis.x, by rw [hc, her]; rfl, ?_, ?_⟩ <;> rw [hstep] <;> simp only [her]
      · exact (hcore Axis.x).1
      · exact (hcore Axis.x).2
    case no =>
      by_cases hcmp : wx ≤ wy
      · refine ⟨Axis.x, by rw [hc, her]; rfl, ?_, ?_⟩ <;> rw [hstep] <;>
          simp only [her, if_pos hcmp]
        · exact (hcore Axis.x).1
        · exact (hcore Axis.x).2
      · refine ⟨Axis.y, by rw [hc, her]; rfl, ?_, ?_⟩ <;> rw [hstep] <;>
          simp only [her, if_neg hcmp]
        · exact (hcore Axis.y).1
        · exact (hcore Axis.y).2

theorem step_measure (s : simulation) (r : StepRand)
    (hend : s.city_map.end_reached ≠ EndReached.both) :
    walk_measure (s.simulation_step r) < walk_measure s := by
  rcases step_core s r hend with ⟨c, hcr, hcore⟩ | ⟨d, hd, hcore, _⟩
  · unfold walk_measure
    rw [hcore]
    show 3 * core_needs s.city_map.core + corner_rank c < core_measure s.city_map.core
    unfold core_measure
    omega
  · unfold walk_measure
    rw [hcore]
    exact core_measure_advance s.city_map.core d hd

theorem walk_measure_pos (s : simulation)
    (hend : s.city_map.end_reached ≠ EndReached.both) : 3 ≤ walk_measure s := by
  have h := core_needs_pos s.city_map.core hend
  unfold walk_measure core_measure
  omega

theorem runWalk_reaches (rs : ℕ → StepRand) (n : ℕ) (s : simulation)
    (h : walk_measure s ≤ n) :
    (runWalk rs n s).city_map.end_reached = EndReached.both := by
  induction n generalizing rs s with
  | zero =>
    by_contra hc
    have := walk_measure_pos s hc
    omega
  | succ n ih =>
    show (if s.city_map.end_reached = EndReached.both then s
      else runWalk (fun k => rs (k + 1)) n (s.simulation_step (rs 0))).city_map.end_reached =
        EndReached.both
    by_cases hb : s.city_map.end_reached = EndReached.both
    · rw [if_pos hb]
      exact hb
    · rw [if_neg hb]
      have hm := step_measure s (rs 0) hb
      exact ih _ _ (by omega)

/-- The invariant making grid positions bounded by the (ceiling of the) grid
lengths: while an axis boundary flag is unset the position is strictly below
the length, and the position never exceeds the length's ceiling. -/
def coreInv (g : GridCore) : Prop :=
  (xDone g.er = false → (g.px : ℚ) < g.lx) ∧ g.px ≤ ⌈g.lx⌉.toNat
  ∧ (yDone g.er = false → (g.py : ℚ) < g.ly) ∧ g.py ≤ ⌈g.ly⌉.toNat

theorem coreInv_advance (g : GridCore) (d : Axis) (hd : axisDone d g.er = false)
    (h : coreInv g) : coreInv (advCore g d) := by
  obtain ⟨h1, h2, h3, h4⟩ := h
  cases d
  case x =>
    have hx : xDone g.er = false := hd
    have hlt : (g.px : ℚ) < g.lx := h1 hx
    have hceil : (g.px : ℤ) < ⌈g.lx⌉ := by
      rw [Int.lt_ceil]
      exact_mod_cast hlt
    rw [advCore_x]
    refine ⟨?_, ?_, ?_, ?_⟩
    · intro hxd
      show ((g.px + 1 : ℕ) : ℚ) < g.lx
      by_cases hhit : g.lx ≤ ((g.px + 1 : ℕ) : ℚ)
      · exfalso
        rw [show (⟨g.lx, g.ly, g.px + 1, g.py,
            if g.lx ≤ ((g.px + 1 : ℕ) : ℚ) then
              if g.er = EndReached.no ∨ g.er = EndReached.xd then EndReached.xd
              else EndReached.both
            else g.er, rotate_corner g.c Axis.x⟩ : GridCore).er =
            (if g.lx ≤ ((g.px + 1 : ℕ) : ℚ) then
              if g.er = EndReached.no ∨ g.er = EndReached.xd then EndReached.xd
              else EndReached.both
            else g.er) from rfl, if_pos hhit] at hxd
        split_ifs at hxd <;> simp [xDone] at hxd
      · push_neg at hhit
        exact hhit
    · show g.px + 1 ≤ ⌈g.lx⌉.toNat
      omega
    · intro hyd
      show (g.py : ℚ) < g.ly
      apply h3
      rw [show (⟨g.lx, g.ly, g.px + 1, g.py,
          if g.lx ≤ ((g.px + 1 : ℕ) : ℚ) then
            if g.er = EndReached.no ∨ g.er = EndReached.xd then EndReached.xd
            else EndReached.both
          else g.er, rotate_corner g.c Axis.x⟩ : GridCore).er =
          (if g.lx ≤ ((g.px + 1 : ℕ) : ℚ) then
            if g.er = EndReached.no ∨ g.er = EndReached.xd then EndReached.xd
            else EndReached.both
          else g.er) from rfl] at hyd
      split_ifs at hyd with hc1 hc2
      · rcases hc2 with hno | hxd2
        · rw [hno]
          rfl
        · rw [hxd2] at hx
          simp [xDone] at hx
      · simp [yDone] at hyd
      · exact hyd
    · exact h4
  case y =>
    have hy : yDone g.er = false := hd
    have hlt : (g.py : ℚ) < g.ly := h3 hy
    have hceil : (g.py : ℤ) < ⌈g.ly⌉ := by
      rw [Int.lt_ceil]
      exact_mod_cast hlt
    rw [advCore_y]
    refine ⟨?_, ?_, ?_, ?_⟩
    · intro hxd
      show (g.px : ℚ) < g.lx
      apply h1
      rw [show (⟨g.lx, g.ly, g.px, g.py + 1,
          if g.ly ≤ ((g.py + 1 : ℕ) : ℚ) then
            if g.er = EndReached.no ∨ g.er = EndReached.yd then EndReached.yd
            else EndReached.both
          else g.er, rotate_corner g.c Axis.y⟩ : GridCore).er =
          (if g.ly ≤ ((g.py + 1 : ℕ) : ℚ) then
            if g.er = EndReached.no ∨ g.er = EndReached.yd then EndReached.yd
            else EndReached.both
          else g.er) from rfl] at hxd
      split_ifs at hxd with hc1 hc2
      · rcases hc2 with hno | hyd2
        · rw [hno]
          rfl
        · rw [hyd2] at hy
          simp [yDone] at hy
      · simp [xDone] at hxd
      · exact hxd
    · exact h2
    · intro hyd
      show ((g.py + 1 : ℕ) : ℚ) < g.ly
      by_cases hhit : g.ly ≤ ((g.py + 1 : ℕ) : ℚ)
      · exfalso
        rw [show (⟨g.lx, g.ly, g.px, g.py + 1,
            if g.ly ≤ ((g.py + 1 : ℕ) : ℚ) then
              if g.er = EndReached.no ∨ g.er = EndReached.yd then EndReached.yd
              else EndReached.both
            else g.er, rotate_corner g.c Axis.y⟩ : GridCore).er =
            (if g.ly ≤ ((g.py + 1 : ℕ) : ℚ) then
              if g.er = EndReached.no ∨ g.er = EndReached.yd then EndReached.yd
              else EndReached.both
            else g.er) from rfl, if_pos hhit] at hyd
        split_ifs at hyd <;> simp [yDone] at hyd
      · push_neg at hhit
        exact hhit
    · show g.py + 1 ≤ ⌈g.ly⌉.toNat
      omega

theorem runWalk_succ (rs : ℕ → StepRand) (n : ℕ) (s : simulation) :
    runWalk rs (n + 1) s =
      if s.city_map.end_reached = EndReached.both then s
      else runWalk (fun k => rs (k + 1)) n (s.simulation_step (rs 0)) := rfl

theorem advCore_lx (g : GridCore) (d : Axis) : (advCore g d).lx = g.lx := by
  cases d <;> rfl

theorem advCore_ly (g : GridCore) (d : Axis) : (advCore g d).ly = g.ly := by
  cases d <;> rfl

theorem step_inv (s : simulation) (r : StepRand)
    (hend : s.city_map.end_reached ≠ EndReached.both) (h : coreInv s.city_map.core) :
    coreInv (s.simulation_step r).city_map.core
    ∧ (s.simulation_step r).city_map.core.lx = s.city_map.core.lx
    ∧ (s.simulation_step r).city_map.core.ly = s.city_map.core.ly := by
  rcases step_core s r hend with ⟨c, _, hcore⟩ | ⟨d, hd, hcore, _⟩
  · rw [hcore]
    exact ⟨h, rfl, rfl⟩
  · rw [hcore]
    exact ⟨coreInv_advance _ _ hd h, advCore_lx _ _, advCore_ly _ _⟩

theorem runWalk_inv (rs : ℕ → StepRand) (n : ℕ) (s : simulation) (h : coreInv s.city_map.core) :
    coreInv (runWalk rs n s).city_map.core
    ∧ (runWalk rs n s).city_map.core.lx = s.city_map.core.lx
    ∧ (runWalk rs n s).city_map.core.ly = s.city_map.core.ly := by
  induction n generalizing rs s with
  | zero => exact ⟨h, rfl, rfl⟩
  | succ n ih =>
    rw [runWalk_succ]
    by_cases hb : s.city_map.end_reached = EndReached.both
    · rw [if_pos hb]
      exact ⟨h, rfl, rfl⟩
    · rw [if_neg hb]
      obtain ⟨h1, h2, h3⟩ := step_inv s (rs 0) hb h
      obtain ⟨g1, g2, g3⟩ := ih (fun k => rs (k + 1)) _ h1
      exact ⟨g1, g2.trans h2, g3.trans h3⟩

/-- C3: the traversal loop terminates.  Each `new_sidewalk_block` strictly
increases the grid position on its axis; starting from a fresh simulation
whose grid lengths exceed 1, both positions stay bounded by the ceilings of
the grid lengths, the loop reaches `end_reached = True` within
`walk_measure` steps, the measure is at most `3·(⌈lx⌉ + ⌈ly⌉) + 2`, and for
lengths at least 2 (every sampled grid length is at least 5) this is within
the claimed order `4·⌈lx⌉·⌈ly⌉`. -/
theorem walk_terminates (rs : ℕ → StepRand) (gr : GridRand) (br : BlockRand) (pr : PedRand)
    (hx : 1 < gr.glx) (hy : 1 < gr.gly) :
    (∀ (m : city_map) (d : Axis) (b : BlockRand),
        (m.new_sidewalk_block d b).grid_position d = m.grid_position d + 1)
    ∧ (∀ n : ℕ,
        (runWalk rs n (simulation.init gr br pr)).city_map.grid_position_x ≤ ⌈gr.glx⌉.toNat
        ∧ (runWalk rs n (simulation.init gr br pr)).city_map.grid_position_y ≤ ⌈gr.gly⌉.toNat)
    ∧ (∀ n : ℕ, walk_measure (simulation.init gr br pr) ≤ n →
        (runWalk rs n (simulation.init gr br pr)).city_map.end_reached = EndReached.both)
    ∧ walk_measure (simulation.init gr br pr) ≤ 3 * (⌈gr.glx⌉.toNat + ⌈gr.gly⌉.toNat) + 2
    ∧ (2 ≤ gr.glx → 2 ≤ gr.gly →
        walk_measure (simulation.init gr br pr) ≤ 4 * (⌈gr.glx⌉.toNat * ⌈gr.gly⌉.toNat)) := by
  have hcx : (1 : ℤ) < ⌈gr.glx⌉ := by
    rw [Int.lt_ceil]
    exact_mod_cast hx
  have hcy : (1 : ℤ) < ⌈gr.gly⌉ := by
    rw [Int.lt_ceil]
    exact_mod_cast hy
  have hinv : coreInv (simulation.init gr br pr).city_map.core := by
    refine ⟨fun _ => ?_, ?_, fun _ => ?_, ?_⟩
    · show ((1 : ℕ) : ℚ) < gr.glx
      exact_mod_cast hx
    · show 1 ≤ ⌈gr.glx⌉.toNat
      omega
    · show ((1 : ℕ) : ℚ) < gr.gly
      exact_mod_cast hy
    · show 1 ≤ ⌈gr.gly⌉.toNat
      omega
  have hmeas : walk_measure (simulation.init gr br pr) =
      3 * (need_axis 1 gr.glx false + need_axis 1 gr.gly false) + 2 := rfl
  have hnx : need_axis 1 gr.glx false = max 1 (⌈gr.glx⌉.toNat - 1) := by
    unfold need_axis
    simp
  have hny : need_axis 1 gr.gly false = max 1 (⌈gr.gly⌉.toNat - 1) := by
    unfold need_axis
    simp
  refine ⟨fun m d b => by cases d <;> rfl, fun n => ?_, fun n h => runWalk_reaches rs n _ h,
    ?_, fun h2x h2y => ?_⟩
  · obtain ⟨⟨_, hpx, _, hpy⟩, hlx, hly⟩ := runWalk_inv rs n _ hinv
    constructor
    · have hgl : (runWalk rs n (simulation.init gr br pr)).city_map.core.lx = gr.glx := hlx
      rw [hgl] at hpx
      exact hpx
    · have hgl : (runWalk rs n (simulation.init gr br pr)).city_map.core.ly = gr.gly := hly
      rw [hgl] at hpy
      exact hpy
  · rw [hmeas, hnx, hny]
    omega
  · have h2cx : (2 : ℤ) ≤ ⌈gr.glx⌉ := by
      have : (1 : ℤ) < ⌈gr.glx⌉ := hcx
      omega
    have h2cy : (2 : ℤ) ≤ ⌈gr.gly⌉ := hcy
    have htx : 2 ≤ ⌈gr.glx⌉.toNat := by omega
    have hty : 2 ≤ ⌈gr.gly⌉.toNat := by omega
    obtain ⟨u, hu⟩ : ∃ u, ⌈gr.glx⌉.toNat = u + 2 := ⟨⌈gr.glx⌉.toNat - 2, by omega⟩
    obtain ⟨v, hv⟩ : ∃ v, ⌈gr.gly⌉.toNat = v + 2 := ⟨⌈gr.gly⌉.toNat - 2, by omega⟩
    rw [hmeas, hnx, hny, hu, hv]
    have hmx : max 1 (u + 2 - 1) = u + 1 := by omega
    have hmy : max 1 (v + 2 - 1) = v + 1 := by omega
    rw [hmx, hmy]
    nlinarith

/-- C3 witness: grid lengths 3 and 5 (the scenario the source's
`test_simulation` runs to completion). -/
theorem walk_terminates_witness :
    ((1 : ℚ) < 3 ∧ (1 : ℚ) < 5)
    ∧ ((∀ (m : city_map) (d : Axis) (b : BlockRand),
          (m.new_sidewalk_block d b).grid_position d = m.grid_position d + 1)
      ∧ (∀ n : ℕ,
          (runWalk (fun _ => ⟨Axis.x, ⟨1, 1, 1, 1, 0⟩, ⟨1, 1, 1, 1, 0⟩, ⟨1, 1⟩⟩) n
              (simulation.init ⟨3, 5⟩ ⟨1, 1⟩ ⟨1, 1⟩)).city_map.grid_position_x ≤
            ⌈(3 : ℚ)⌉.toNat
          ∧ (runWalk (fun _ => ⟨Axis.x, ⟨1, 1, 1, 1, 0⟩, ⟨1, 1, 1, 1, 0⟩, ⟨1, 1⟩⟩) n
              (simulation.init ⟨3, 5⟩ ⟨1, 1⟩ ⟨1, 1⟩)).city_map.grid_position_y ≤
            ⌈(5 : ℚ)⌉.toNat)
      ∧ (∀ n : ℕ, walk_measure (simulation.init ⟨3, 5⟩ ⟨1, 1⟩ ⟨1, 1⟩) ≤ n →
          (runWalk (fun _ => ⟨Axis.x, ⟨1, 1, 1, 1, 0⟩, ⟨1, 1, 1, 1, 0⟩, ⟨1, 1⟩⟩) n
              (simulation.init ⟨3, 5⟩ ⟨1, 1⟩ ⟨1, 1⟩)).city_map.end_reached = EndReached.both)
      ∧ walk_measure (simulation.init ⟨3, 5⟩ ⟨1, 1⟩ ⟨1, 1⟩) ≤
          3 * (⌈(3 : ℚ)⌉.toNat + ⌈(5 : ℚ)⌉.toNat) + 2
      ∧ ((2 : ℚ) ≤ 3 → (2 : ℚ) ≤ 5 →
          walk_measure (simulation.init ⟨3, 5⟩ ⟨1, 1⟩ ⟨1, 1⟩) ≤
            4 * (⌈(3 : ℚ)⌉.toNat * ⌈(5 : ℚ)⌉.toNat))) :=
  ⟨⟨by norm_num, by norm_num⟩,
    walk_terminates (fun _ => ⟨Axis.x, ⟨1, 1, 1, 1, 0⟩, ⟨1, 1, 1, 1, 0⟩, ⟨1, 1⟩⟩)
      ⟨3, 5⟩ ⟨1, 1⟩ ⟨1, 1⟩ (by norm_num) (by norm_num)⟩

/-- Positivity of the two signal durations of an optional light. -/
def durOk : Option traffic_light → Prop
  | some l => 0 < l.x_signal_duration ∧ 0 < l.y_signal_duration
  | none => True

/-- All lights materialized in the map have positive signal durations. -/
def lights_dur_pos (m : city_map) : Prop := ∀ c : Corner, durOk (m.segGet c)

theorem get_current_traffic_light_dur (m : city_map) (r : LightRand)
    (hm : lights_dur_pos m) (hrx : 0 < r.xdur) (hry : 0 < r.ydur) :
    0 < (m.get_current_traffic_light r).1.x_signal_duration
    ∧ 0 < (m.get_current_traffic_light r).1.y_signal_duration := by
  have hcur := hm m.sidewalk_position
  unfold city_map.get_current_traffic_light
  split
  · next l heq => rw [heq] at hcur; exact hcur
  · exact ⟨hrx, hry⟩

theorem set_state_xdur (l : traffic_light) (t : ℚ) :
    (l.set_state t).x_signal_duration = l.x_signal_duration := by
  unfold traffic_light.set_state
  dsimp only
  split <;> rfl

theorem set_state_ydur (l : traffic_light) (t : ℚ) :
    (l.set_state t).y_signal_duration = l.y_signal_duration := by
  unfold traffic_light.set_state
  dsimp only
  split <;> rfl

/-- C9: every step of a walk taken before termination either leaves both
wait statistics unchanged, or increments `cumulative_lights_waited_at` by
exactly one while adding a non-negative wait to
`cumulative_time_waiting_at_lights` (so the waited-at counter counts exactly
the steps that accrued a wait and the cumulative wait never decreases); at
the `lower_right` corner the wait is accrued unconditionally. -/
theorem step_wait_accounting (s : simulation) (r : StepRand)
    (hend : s.city_map.end_reached ≠ EndReached.both)
    (hm : lights_dur_pos s.city_map)
    (hrx : 0 < r.light.xdur) (hry : 0 < r.light.ydur) :
    s.cumulative_time_waiting_at_lights ≤ (s.simulation_step r).cumulative_time_waiting_at_lights
    ∧ (((s.simulation_step r).cumulative_lights_waited_at = s.cumulative_lights_waited_at
        ∧ (s.simulation_step r).cumulative_time_waiting_at_lights =
            s.cumulative_time_waiting_at_lights)
      ∨ ((s.simulation_step r).cumulative_lights_waited_at = s.cumulative_lights_waited_at + 1
        ∧ ∃ w : ℚ, 0 ≤ w
          ∧ (s.simulation_step r).cumulative_time_waiting_at_lights =
              s.cumulative_time_waiting_at_lights + w))
    ∧ (s.city_map.sidewalk_position = Corner.lower_right →
        (s.simulation_step r).cumulative_lights_waited_at = s.cumulative_lights_waited_at + 1) := by
  have hdur := get_current_traffic_light_dur s.city_map r.light hm hrx hry
  cases hsp : s.city_map.sidewalk_position
  case upper_left =>
    have hstep : s.simulation_step r =
        (match (match s.city_map.end_reached with
                | EndReached.no => r.choice
                | EndReached.xd => Axis.y
                | EndReached.yd => Axis.x
                | EndReached.both => r.choice) with
          | Axis.x => s.cross_sidewalk Axis.x Corner.upper_right
          | Axis.y => s.cross_sidewalk Axis.y Corner.lower_left) := by
      unfold simulation.simulation_step
      rw [hsp]
    refine ⟨?_, ?_, fun hlr => Corner.noConfusion hlr⟩ <;>
      rw [hstep] <;>
      cases (match s.city_map.end_reached with
            | EndReached.no => r.choice
            | EndReached.xd => Axis.y
            | EndReached.yd => Axis.x
            | EndReached.both => r.choice)
    · exact le_refl _
    · exact le_refl _
    · exact Or.inl ⟨rfl, rfl⟩
    · exact Or.inl ⟨rfl, rfl⟩
  case lower_left =>
    have hstep : s.simulation_step r =
        (if s.city_map.end_reached ≠ EndReached.yd then
          let p := s.city_map.get_current_traffic_light r.light
          let light := p.1.set_state s.time
          let s1 := { s with city_map := p.2.segSet Corner.lower_left (some light) }
          let cross_wait_time := light.time_until_can_cross Axis.y s.pedestrian.velocity
          if s.pedestrian.would_choose_to_wait_for_light cross_wait_time then
            simulation.cross_traffic_light
              { s1 with
                time := s1.time + cross_wait_time
                cumulative_time_waiting_at_lights :=
                  s1.cumulative_time_waiting_at_lights + cross_wait_time
                cumulative_lights_waited_at := s1.cumulative_lights_waited_at + 1 }
              Axis.y r.light2 r.block
          else
            s1.cross_sidewalk Axis.x Corner.lower_right
        else
          s.cross_sidewalk Axis.x Corner.lower_right) := by
      unfold simulation.simulation_step
      rw [hsp]
    set p := s.city_map.get_current_traffic_light r.light with hp
    set light := p.1.set_state s.time with hlight
    have hld : 0 < light.x_signal_duration ∧ 0 < light.y_signal_duration := by
      rw [hlight, set_state_xdur, set_state_ydur]
      exact hdur
    have hw0 : 0 ≤ light.time_until_can_cross Axis.y s.pedestrian.velocity :=
      time_until_can_cross_nonneg light Axis.y s.pedestrian.velocity hld.1 hld.2
    refine ⟨?_, ?_, fun hlr => Corner.noConfusion hlr⟩ <;>
      rw [hstep] <;>
      by_cases hyd : s.city_map.end_reached = EndReached.yd
    · rw [if_neg (by simp [hyd])]
      exact le_refl _
    · rw [if_pos hyd]
      by_cases hwc : s.pedestrian.would_choose_to_wait_for_light
          (light.time_until_can_cross Axis.y s.pedestrian.velocity)
      · rw [if_pos hwc]
        show s.cumulative_time_waiting_at_lights ≤
          s.cumulative_time_waiting_at_lights +
            light.time_until_can_cross Axis.y s.pedestrian.velocity
        linarith
      · rw [if_neg hwc]
        exact le_refl _
    · rw [if_neg (by simp [hyd])]
      exact Or.inl ⟨rfl, rfl⟩
    · rw [if_pos hyd]
      by_cases hwc : s.pedestrian.would_choose_to_wait_for_light
          (light.time_until_can_cross Axis.y s.pedestrian.velocity)
      · rw [if_pos hwc]
        exact Or.inr ⟨rfl, light.time_until_can_cross Axis.y s.pedestrian.velocity, hw0, rfl⟩
      · rw [if_neg hwc]
        exact Or.inl ⟨rfl, rfl⟩
  case upper_right =>
    have hstep : s.simulation_step r =
        (if s.city_map.end_reached ≠ EndReached.xd then
          let p := s.city_map.get_current_traffic_light r.light
          let light := p.1.set_state s.time
          let s1 := { s with city_map := p.2.segSet Corner.upper_right (some light) }
          let cross_wait_time := light.time_until_can_cross Axis.x s.pedestrian.velocity
          if s.pedestrian.would_choose_to_wait_for_light cross_wait_time then
            simulation.cross_traffic_light
              { s1 with
                time := s1.time + cross_wait_time
                cumulative_time_waiting_at_lights :=
                  s1.cumulative_time_waiting_at_lights + cross_wait_time
                cumulative_lights_waited_at := s1.cumulative_lights_waited_at + 1 }
              Axis.x r.light2 r.block
          else
            s1.cross_sidewalk Axis.y Corner.lower_right
        else
          s.cross_sidewalk Axis.y Corner.lower_right) := by
      unfold simulation.simulation_step
      rw [hsp]
    set p := s.city_map.get_current_traffic_light r.light with hp
    set light := p.1.set_state s.time with hlight
    have hld : 0 < light.x_signal_duration ∧ 0 < light.y_signal_duration := by
      rw [hlight, set_state_xdur, set_state_ydur]
      exact hdur
    have hw0 : 0 ≤ light.time_until_can_cross Axis.x s.pedestrian.velocity :=
      time_until_can_cross_nonneg light Axis.x s.pedestrian.velocity hld.1 hld.2
    refine ⟨?_, ?_, fun hlr => Corner.noConfusion hlr⟩ <;>
      rw [hstep] <;>
      by_cases hxd : s.city_map.end_reached = EndReached.xd
    · rw [if_neg (by simp [hxd])]
      exact le_refl _
    · rw [if_pos hxd]
      by_cases hwc : s.pedestrian.would_choose_to_wait_for_light
          (light.time_until_can_cross Axis.x s.pedestrian.velocity)
      · rw [if_pos hwc]
        show s.cumulative_time_waiting_at_lights ≤
          s.cumulative_time_waiting_at_lights +
            light.time_until_can_cross Axis.x s.pedestrian.velocity
        linarith
      · rw [if_neg hwc]
        exact le_refl _
    · rw [if_neg (by simp [hxd])]
      exact Or.inl ⟨rfl, rfl⟩
    · rw [if_pos hxd]
      by_cases hwc : s.pedestrian.would_choose_to_wait_for_light
          (light.time_until_can_cross Axis.x s.pedestrian.velocity)
      · rw [if_pos hwc]
        exact Or.inr ⟨rfl, light.time_until_can_cross Axis.x s.pedestrian.velocity, hw0, rfl⟩
      · rw [if_neg hwc]
        exact Or.inl ⟨rfl, rfl⟩
  case lower_right =>
    have hstep : s.simulation_step r =
        (let p := s.city_map.get_current_traffic_light r.light
         let light := p.1.set_state s.time
         let s1 := { s with city_map := p.2.segSet Corner.lower_right (some light) }
         let cross_wait_time_x := light.time_until_can_cross Axis.x s.pedestrian.velocity
         let cross_wait_time_y := light.time_until_can_cross Axis.y s.pedestrian.velocity
         let direction :=
           match s.city_map.end_reached with
           | EndReached.xd => Axis.y
           | EndReached.yd => Axis.x
           | EndReached.both => Axis.x
           | EndReached.no =>
             if cross_wait_time_x ≤ cross_wait_time_y then Axis.x else Axis.y
         let cross_wait_time :=
           match direction with
           | Axis.x => cross_wait_time_x
           | Axis.y => cross_wait_time_y
         simulation.cross_traffic_light
           { s1 with
             time := s1.time + cross_wait_time
             cumulative_time_waiting_at_lights :=
               s1.cumulative_time_waiting_at_lights + cross_wait_time
             cumulative_lights_waited_at := s1.cumulative_lights_waited_at + 1 }
           direction r.light2 r.block) := by
      unfold simulation.simulation_step
      rw [hsp]
    set p := s.city_map.get_current_traffic_light r.light with hp
    set light := p.1.set_state s.time with hlight
    have hld : 0 < light.x_signal_duration ∧ 0 < light.y_signal_duration := by
      rw [hlight, set_state_xdur, set_state_ydur]
      exact hdur
    have hwx0 : 0 ≤ light.time_until_can_cross Axis.x s.pedestrian.velocity :=
      time_until_can_cross_nonneg light Axis.x s.pedestrian.velocity hld.1 hld.2
    have hwy0 : 0 ≤ light.time_until_can_cross Axis.y s.pedestrian.velocity :=
      time_until_can_cross_nonneg light Axis.y s.pedestrian.velocity hld.1 hld.2
    have hw0 : 0 ≤ (match (match s.city_map.end_reached with
           | EndReached.xd => Axis.y
           | EndReached.yd => Axis.x
           | EndReached.both => Axis.x
           | EndReached.no =>
             if light.time_until_can_cross Axis.x s.pedestrian.velocity ≤
                 light.time_until_can_cross Axis.y s.pedestrian.velocity then Axis.x
             else Axis.y) with
          | Axis.x => light.time_until_can_cross Axis.x s.pedestrian.velocity
          | Axis.y => light.time_until_can_cross Axis.y s.pedestrian.velocity) := by
      cases (match s.city_map.end_reached with
           | EndReached.xd => Axis.y
           | EndReached.yd => Axis.x
           | EndReached.both => Axis.x
           | EndReached.no =>
             if light.time_until_can_cross Axis.x s.pedestrian.velocity ≤
                 light.time_until_can_cross Axis.y s.pedestrian.velocity then Axis.x
             else Axis.y)
      · exact hwx0
      · exact hwy0
    refine ⟨?_, ?_, fun _ => ?_⟩ <;> rw [hstep]
    · show s.cumulative_time_waiting_at_lights ≤ s.cumulative_time_waiting_at_lights + _
      linarith
    · exact Or.inr ⟨rfl, _, hw0, rfl⟩
    · rfl

theorem runWalk_count_pos (rs : ℕ → StepRand) (n : ℕ) (s : simulation)
    (hinv : s.city_map.end_reached = EndReached.both → 1 ≤ s.cumulative_lights_waited_at) :
    (runWalk rs n s).city_map.end_reached = EndReached.both →
      1 ≤ (runWalk rs n s).cumulative_lights_waited_at := by
  induction n generalizing rs s with
  | zero => exact hinv
  | succ n ih =>
    rw [runWalk_succ]
    by_cases hb : s.city_map.end_reached = EndReached.both
    · rw [if_pos hb]
      exact hinv
    · rw [if_neg hb]
      apply ih
      rcases step_core s (rs 0) hb with ⟨c, _, hcore⟩ | ⟨d, _, _, hcount⟩
      · intro hb2
        exfalso
        apply hb
        have her : (s.simulation_step (rs 0)).city_map.core.er = s.city_map.core.er := by
          rw [hcore]
        show s.city_map.core.er = EndReached.both
        rw [← her]
        exact hb2
      · intro _
        rw [hcount]
        omega

/-- Python division: a zero divisor raises `ZeroDivisionError` (modelled as
`Except.error`), otherwise the quotient is produced. -/
def pythonDiv (a b : ℚ) : Except Unit ℚ :=
  if b = 0 then Except.error () else Except.ok (a / b)

/-- The per-trial value `monte_carlo.run_simulations` appends to the
`cumulative_time_waiting_per_light` log: the quotient of the terminated
simulation's cumulative wait by its waited-at counter, divided
unconditionally. -/
def cumulative_time_waiting_per_light (s : simulation) : Except Unit ℚ :=
  pythonDiv s.cumulative_time_waiting_at_lights (s.cumulative_lights_waited_at : ℚ)

/-- C10: a walk run from the freshly constructed state can only reach
`end_reached = True` through an advance, and every advance site first
increments `cumulative_lights_waited_at`, so at termination the waited-at
counter is at least 1 and the driver's per-trial quotient is a performed,
well-defined division. -/
theorem terminated_walk_waits (rs : ℕ → StepRand) (n : ℕ) (gr : GridRand) (br : BlockRand)
    (pr : PedRand)
    (h : (runWalk rs n (simulation.init gr br pr)).city_map.end_reached = EndReached.both) :
    1 ≤ (runWalk rs n (simulation.init gr br pr)).cumulative_lights_waited_at
    ∧ ((runWalk rs n (simulation.init gr br pr)).cumulative_lights_waited_at : ℚ) ≠ 0
    ∧ cumulative_time_waiting_per_light (runWalk rs n (simulation.init gr br pr)) =
        Except.ok
          ((runWalk rs n (simulation.init gr br pr)).cumulative_time_waiting_at_lights /
            ((runWalk rs n (simulation.init gr br pr)).cumulative_lights_waited_at : ℚ)) := by
  have h1 : 1 ≤ (runWalk rs n (simulation.init gr br pr)).cumulative_lights_waited_at :=
    runWalk_count_pos rs n _ (fun hb => EndReached.noConfusion hb) h
  have h2 : ((runWalk rs n (simulation.init gr br pr)).cumulative_lights_waited_at : ℚ) ≠ 0 := by
    exact_mod_cast Nat.one_le_iff_ne_zero.mp h1
  refine ⟨h1, h2, ?_⟩
  unfold cumulative_time_waiting_per_light pythonDiv
  rw [if_neg h2]

/-- C10 witness: grid lengths 3 and 5, a run of 20 steps (the measure bound)
with a constant oracle. -/
theorem terminated_walk_waits_witness :
    (runWalk (fun _ => ⟨Axis.x, ⟨1, 1, 1, 1, 0⟩, ⟨1, 1, 1, 1, 0⟩, ⟨1, 1⟩⟩) 20
        (simulation.init ⟨3, 5⟩ ⟨1, 1⟩ ⟨1, 1⟩)).city_map.end_reached = EndReached.both
    ∧ (1 ≤ (runWalk (fun _ => ⟨Axis.x, ⟨1, 1, 1, 1, 0⟩, ⟨1, 1, 1, 1, 0⟩, ⟨1, 1⟩⟩) 20
          (simulation.init ⟨3, 5⟩ ⟨1, 1⟩ ⟨1, 1⟩)).cumulative_lights_waited_at
      ∧ ((runWalk (fun _ => ⟨Axis.x, ⟨1, 1, 1, 1, 0⟩, ⟨1, 1, 1, 1, 0⟩, ⟨1, 1⟩⟩) 20
          (simulation.init ⟨3, 5⟩ ⟨1, 1⟩ ⟨1, 1⟩)).cumulative_lights_waited_at : ℚ) ≠ 0
      ∧ cumulative_time_waiting_per_light
          (runWalk (fun _ => ⟨Axis.x, ⟨1, 1, 1, 1, 0⟩, ⟨1, 1, 1, 1, 0⟩, ⟨1, 1⟩⟩) 20
            (simulation.init ⟨3, 5⟩ ⟨1, 1⟩ ⟨1, 1⟩)) =
          Except.ok
            ((runWalk (fun _ => ⟨Axis.x, ⟨1, 1, 1, 1, 0⟩, ⟨1, 1, 1, 1, 0⟩, ⟨1, 1⟩⟩) 20
                (simulation.init ⟨3, 5⟩ ⟨1, 1⟩ ⟨1, 1⟩)).cumulative_time_waiting_at_lights /
              ((runWalk (fun _ => ⟨Axis.x, ⟨1, 1, 1, 1, 0⟩, ⟨1, 1, 1, 1, 0⟩, ⟨1, 1⟩⟩) 20
                  (simulation.init ⟨3, 5⟩ ⟨1, 1⟩ ⟨1, 1⟩)).cumulative_lights_waited_at : ℚ))) := by
  have hc3 : ⌈(3 : ℚ)⌉ = 3 := by norm_num
  have hc5 : ⌈(5 : ℚ)⌉ = 5 := by norm_num
  have hm : walk_measure (simulation.init ⟨3, 5⟩ ⟨1, 1⟩ ⟨1, 1⟩) ≤ 20 := by
    have he : walk_measure (simulation.init ⟨3, 5⟩ ⟨1, 1⟩ ⟨1, 1⟩) =
        3 * (need_axis 1 (3 : ℚ) false + need_axis 1 (5 : ℚ) false) + 2 := rfl
    rw [he]
    unfold need_axis
    rw [hc3, hc5]
    simp
  have hterm := runWalk_reaches (fun _ => ⟨Axis.x, ⟨1, 1, 1, 1, 0⟩, ⟨1, 1, 1, 1, 0⟩, ⟨1, 1⟩⟩)
    20 (simulation.init ⟨3, 5⟩ ⟨1, 1⟩ ⟨1, 1⟩) hm
  exact ⟨hterm, terminated_walk_waits _ 20 ⟨3, 5⟩ ⟨1, 1⟩ ⟨1, 1⟩ hterm⟩

/-- A terminated-looking simulation state with a zero waited-at counter. -/
def unguarded_state : simulation :=
  { city_map := ⟨3, 5, 3, 5, Corner.upper_left, EndReached.both, ⟨1, 1⟩, none, none, none, none⟩
    pedestrian := ⟨1, 1⟩
    time := 0
    cumulative_time_waiting_at_lights := 0
    cumulative_lights_waited_at := 0 }

/-- C8 counterexample: the driver has no undefined-report path.  On a
terminated walk state whose `cumulative_lights_waited_at` is 0 the logged
value is the unconditional division, which raises `ZeroDivisionError`
(`Except.error`) instead of reporting the ratio as undefined. -/
theorem mean_wait_division_counterexample :
    unguarded_state.city_map.end_reached = EndReached.both
    ∧ unguarded_state.cumulative_lights_waited_at = 0
    ∧ cumulative_time_waiting_per_light unguarded_state = Except.error () := by
  refine ⟨rfl, rfl, ?_⟩
  unfold cumulative_time_waiting_per_light pythonDiv unguarded_state
  norm_num

/-- C8 amended: `run_simulations` performs the division unconditionally —
`Except.ok` whenever the counter is non-zero and `ZeroDivisionError`
otherwise, never an undefined report — and this is safe because every walk
run to completion from the initial state has a non-zero counter, so the
division it performs is always defined. -/
theorem mean_wait_division_amended (rs : ℕ → StepRand) (n : ℕ) (gr : GridRand)
    (br : BlockRand) (pr : PedRand)
    (h : (runWalk rs n (simulation.init gr br pr)).city_map.end_reached = EndReached.both) :
    (∀ s : simulation, (s.cumulative_lights_waited_at : ℚ) ≠ 0 →
        cumulative_time_waiting_per_light s =
          Except.ok (s.cumulative_time_waiting_at_lights / (s.cumulative_lights_waited_at : ℚ)))
    ∧ (∀ s : simulation, (s.cumulative_lights_waited_at : ℚ) = 0 →
        cumulative_time_waiting_per_light s = Except.error ())
    ∧ ((runWalk rs n (simulation.init gr br pr)).cumulative_lights_waited_at : ℚ) ≠ 0
    ∧ cumulative_time_waiting_per_light (runWalk rs n (simulation.init gr br pr)) =
        Except.ok
          ((runWalk rs n (simulation.init gr br pr)).cumulative_time_waiting_at_lights /
            ((runWalk rs n (simulation.init gr br pr)).cumulative_lights_waited_at : ℚ)) := by
  have h1 : 1 ≤ (runWalk rs n (simulation.init gr br pr)).cumulative_lights_waited_at :=
    runWalk_count_pos rs n _ (fun hb => EndReached.noConfusion hb) h
  have h2 : ((runWalk rs n (simulation.init gr br pr)).cumulative_lights_waited_at : ℚ) ≠ 0 := by
    exact_mod_cast Nat.one_le_iff_ne_zero.mp h1
  refine ⟨fun s hs => ?_, fun s hs => ?_, h2, ?_⟩
  · unfold cumulative_time_waiting_per_light pythonDiv
    rw [if_neg hs]
  · unfold cumulative_time_waiting_per_light pythonDiv
    rw [if_pos hs]
  · unfold cumulative_time_waiting_per_light pythonDiv
    rw [if_neg h2]

/-- C8 amended witness: the same terminating 20-step run as the C10
witness. -/
theorem mean_wait_division_amended_witness :
    (runWalk (fun _ => ⟨Axis.y, ⟨1, 1, 1, 1, 0⟩, ⟨1, 1, 1, 1, 0⟩, ⟨1, 1⟩⟩) 20
        (simulation.init ⟨3, 5⟩ ⟨1, 1⟩ ⟨1, 1⟩)).city_map.end_reached = EndReached.both
    ∧ (((runWalk (fun _ => ⟨Axis.y, ⟨1, 1, 1, 1, 0⟩, ⟨1, 1, 1, 1, 0⟩, ⟨1, 1⟩⟩) 20
          (simulation.init ⟨3, 5⟩ ⟨1, 1⟩ ⟨1, 1⟩)).cumulative_lights_waited_at : ℚ) ≠ 0
      ∧ cumulative_time_waiting_per_light
          (runWalk (fun _ => ⟨Axis.y, ⟨1, 1, 1, 1, 0⟩, ⟨1, 1, 1, 1, 0⟩, ⟨1, 1⟩⟩) 20
            (simulation.init ⟨3, 5⟩ ⟨1, 1⟩ ⟨1, 1⟩)) =
          Except.ok
            ((runWalk (fun _ => ⟨Axis.y, ⟨1, 1, 1, 1, 0⟩, ⟨1, 1, 1, 1, 0⟩, ⟨1, 1⟩⟩) 20
                (simulation.init ⟨3, 5⟩ ⟨1, 1⟩ ⟨1, 1⟩)).cumulative_time_waiting_at_lights /
              ((runWalk (fun _ => ⟨Axis.y, ⟨1, 1, 1, 1, 0⟩, ⟨1, 1, 1, 1, 0⟩, ⟨1, 1⟩⟩) 20
                  (simulation.init ⟨3, 5⟩ ⟨1, 1⟩ ⟨1, 1⟩)).cumulative_lights_waited_at : ℚ))) := by
  have hc3 : ⌈(3 : ℚ)⌉ = 3 := by norm_num
  have hc5 : ⌈(5 : ℚ)⌉ = 5 := by norm_num
  have hm : walk_measure (simulation.init ⟨3, 5⟩ ⟨1, 1⟩ ⟨1, 1⟩) ≤ 20 := by
    have he : walk_measure (simulation.init ⟨3, 5⟩ ⟨1, 1⟩ ⟨1, 1⟩) =
        3 * (need_axis 1 (3 : ℚ) false + need_axis 1 (5 : ℚ) false) + 2 := rfl
    rw [he]
    unfold need_axis
    rw [hc3, hc5]
    simp
  have hterm := runWalk_reaches (fun _ => ⟨Axis.y, ⟨1, 1, 1, 1, 0⟩, ⟨1, 1, 1, 1, 0⟩, ⟨1, 1⟩⟩)
    20 (simulation.init ⟨3, 5⟩ ⟨1, 1⟩ ⟨1, 1⟩) hm
  have happ := mean_wait_division_amended
    (fun _ => ⟨Axis.y, ⟨1, 1, 1, 1, 0⟩, ⟨1, 1, 1, 1, 0⟩, ⟨1, 1⟩⟩) 20 ⟨3, 5⟩ ⟨1, 1⟩ ⟨1, 1⟩ hterm
  exact ⟨hterm, happ.2.2.1, happ.2.2.2⟩

/-- C9 witness: a fresh simulation (empty light slots) with a unit oracle at
the `upper_left` corner. -/
theorem step_wait_accounting_witness :
    ((simulation.init ⟨3, 5⟩ ⟨1, 1⟩ ⟨1, 1⟩).city_map.end_reached ≠ EndReached.both
      ∧ lights_dur_pos (simulation.init ⟨3, 5⟩ ⟨1, 1⟩ ⟨1, 1⟩).city_map
      ∧ (0 : ℚ) < 1 ∧ (0 : ℚ) < 1)
    ∧ ((simulation.init ⟨3, 5⟩ ⟨1, 1⟩ ⟨1, 1⟩).cumulative_time_waiting_at_lights ≤
        ((simulation.init ⟨3, 5⟩ ⟨1, 1⟩ ⟨1, 1⟩).simulation_step
          ⟨Axis.x, ⟨1, 1, 1, 1, 0⟩, ⟨1, 1, 1, 1, 0⟩, ⟨1, 1⟩⟩).cumulative_time_waiting_at_lights
      ∧ ((((simulation.init ⟨3, 5⟩ ⟨1, 1⟩ ⟨1, 1⟩).simulation_step
            ⟨Axis.x, ⟨1, 1, 1, 1, 0⟩, ⟨1, 1, 1, 1, 0⟩, ⟨1, 1⟩⟩).cumulative_lights_waited_at =
              (simulation.init ⟨3, 5⟩ ⟨1, 1⟩ ⟨1, 1⟩).cumulative_lights_waited_at
          ∧ ((simulation.init ⟨3, 5⟩ ⟨1, 1⟩ ⟨1, 1⟩).simulation_step
            ⟨Axis.x, ⟨1, 1, 1, 1, 0⟩, ⟨1, 1, 1, 1, 0⟩, ⟨1, 1⟩⟩).cumulative_time_waiting_at_lights =
              (simulation.init ⟨3, 5⟩ ⟨1, 1⟩ ⟨1, 1⟩).cumulative_time_waiting_at_lights)
        ∨ (((simulation.init ⟨3, 5⟩ ⟨1, 1⟩ ⟨1, 1⟩).simulation_step
            ⟨Axis.x, ⟨1, 1, 1, 1, 0⟩, ⟨1, 1, 1, 1, 0⟩, ⟨1, 1⟩⟩).cumulative_lights_waited_at =
              (simulation.init ⟨3, 5⟩ ⟨1, 1⟩ ⟨1, 1⟩).cumulative_lights_waited_at + 1
          ∧ ∃ w : ℚ, 0 ≤ w
            ∧ ((simulation.init ⟨3, 5⟩ ⟨1, 1⟩ ⟨1, 1⟩).simulation_step
              ⟨Axis.x, ⟨1, 1, 1, 1, 0⟩, ⟨1, 1, 1, 1, 0⟩, ⟨1, 1⟩⟩).cumulative_time_waiting_at_lights =
                (simulation.init ⟨3, 5⟩ ⟨1, 1⟩ ⟨1, 1⟩).cumulative_time_waiting_at_lights + w))
      ∧ ((simulation.init ⟨3, 5⟩ ⟨1, 1⟩ ⟨1, 1⟩).city_map.sidewalk_position = Corner.lower_right →
          ((simulation.init ⟨3, 5⟩ ⟨1, 1⟩ ⟨1, 1⟩).simulation_step
            ⟨Axis.x, ⟨1, 1, 1, 1, 0⟩, ⟨1, 1, 1, 1, 0⟩, ⟨1, 1⟩⟩).cumulative_lights_waited_at =
              (simulation.init ⟨3, 5⟩ ⟨1, 1⟩ ⟨1, 1⟩).cumulative_lights_waited_at + 1)) :=
  ⟨⟨fun h => EndReached.noConfusion h, fun c => by cases c <;> exact trivial,
      by norm_num, by norm_num⟩,
    step_wait_accounting (simulation.init ⟨3, 5⟩ ⟨1, 1⟩ ⟨1, 1⟩)
      ⟨Axis.x, ⟨1, 1, 1, 1, 0⟩, ⟨1, 1, 1, 1, 0⟩, ⟨1, 1⟩⟩
      (fun h => EndReached.noConfusion h) (fun c => by cases c <;> exact trivial)
      (by norm_num) (by norm_num)⟩

/-- The shared y-edge of two optional lights has matching length. -/
def yEdge_ok : Option traffic_light → Option traffic_light → Prop
  | some a, some b => a.y_length = b.y_length
  | _, _ => True

/-- The shared x-edge of two optional lights has matching length. -/
def xEdge_ok : Option traffic_light → Option traffic_light → Prop
  | some a, some b => a.x_length = b.x_length
  | _, _ => True

/-- Each of the four adjacent corner pairs of the current cell carries equal
length on the shared edge (pairs on the same horizontal edge share
`y_length`, pairs on the same vertical edge share `x_length`), whenever both
lights are materialized. -/
def lights_edge_matched (m : city_map) : Prop :=
  yEdge_ok m.seg_ul m.seg_ur ∧ xEdge_ok m.seg_ur m.seg_lr
  ∧ yEdge_ok m.seg_ll m.seg_lr ∧ xEdge_ok m.seg_ul m.seg_ll

/-- Positivity of both crossing lengths of an optional light. -/
def lenOk : Option traffic_light → Prop
  | some l => 0 < l.x_length ∧ 0 < l.y_length
  | none => True

/-- All lights materialized in the map have positive crossing lengths. -/
def lights_len_pos (m : city_map) : Prop := ∀ c : Corner, lenOk (m.segGet c)

theorem traffic_light_init_x_length (a b c d e : Option ℚ) (r : LightRand) :
    (traffic_light.init a b c d e r).x_length = pyOr a r.xlen := rfl

theorem traffic_light_init_y_length (a b c d e : Option ℚ) (r : LightRand) :
    (traffic_light.init a b c d e r).y_length = pyOr b r.ylen := rfl

theorem pyOr_pos (v s : ℚ) (hv : 0 < v) : pyOr (some v) s = v := pyOr_some v s hv.ne'

theorem xEdge_ok_none_left (b : Option traffic_light) : xEdge_ok none b := by
  cases b <;> trivial

theorem xEdge_ok_none_right (a : Option traffic_light) : xEdge_ok a none := by
  cases a <;> trivial

theorem yEdge_ok_none_left (b : Option traffic_light) : yEdge_ok none b := by
  cases b <;> trivial

theorem yEdge_ok_none_right (a : Option traffic_light) : yEdge_ok a none := by
  cases a <;> trivial

/-- C6: when `get_current_traffic_light` materializes a new signal, each of
its lengths is copied from the already-materialized adjacent signal sharing
that physical edge when one exists (the Python `or` keeps the copied value
because materialized lengths are positive, hence truthy), and the
edge-matching invariant of the four corner slots is preserved, so signals
materialized at adjacent corners of the same cell share equal length on
their common edge. -/
theorem signal_edge_matching (m : city_map) (r : LightRand)
    (hnew : m.segGet m.sidewalk_position = none)
    (hmatch : lights_edge_matched m)
    (hpos : lights_len_pos m)
    (hrx : 0 < r.xlen) (hry : 0 < r.ylen) :
    (∀ t : traffic_light, m.xEdgeNeighbor = some t →
        (m.get_current_traffic_light r).1.x_length = t.x_length)
    ∧ (∀ t : traffic_light, m.yEdgeNeighbor = some t →
        (m.get_current_traffic_light r).1.y_length = t.y_length)
    ∧ lights_edge_matched (m.get_current_traffic_light r).2 := by
  obtain ⟨lx, ly, px, py, sp, er, seg, sul, sur, sll, slr⟩ := m
  obtain ⟨h1, h2, h3, h4⟩ := hmatch
  cases sp
  case lower_right =>
    simp only [city_map.segGet] at hnew
    subst hnew
    have hUR := hpos Corner.upper_right
    have hLL := hpos Corner.lower_left
    simp only [city_map.segGet] at hUR hLL
    simp only [city_map.get_current_traffic_light, city_map.segGet, city_map.xEdgeNeighbor,
      city_map.yEdgeNeighbor, city_map.segSet, lights_edge_matched]
    cases sur <;> cases sll
    · exact ⟨fun t ht => Option.noConfusion ht, fun t ht => Option.noConfusion ht,
        h1, xEdge_ok_none_left _, yEdge_ok_none_left _, h4⟩
    · next t1 =>
      refine ⟨fun t ht => Option.noConfusion ht, fun t ht => ?_, ?_⟩
      · cases ht
        simp only [Option.map_some, traffic_light_init_y_length]
        exact pyOr_pos _ _ hLL.2
      · refine ⟨h1, xEdge_ok_none_left _, ?_, h4⟩
        show t1.y_length = (traffic_light.init none (some t1.y_length) none none none r).y_length
        rw [traffic_light_init_y_length, pyOr_pos _ _ hLL.2]
    · next t2 =>
      refine ⟨fun t ht => ?_, fun t ht => Option.noConfusion ht, ?_⟩
      · cases ht
        simp only [Option.map_some, traffic_light_init_x_length]
        exact pyOr_pos _ _ hUR.1
      · refine ⟨h1, ?_, yEdge_ok_none_left _, h4⟩
        show t2.x_length = (traffic_light.init (some t2.x_length) none none none none r).x_length
        rw [traffic_light_init_x_length, pyOr_pos _ _ hUR.1]
    · next t2 t1 =>
      refine ⟨fun t ht => ?_, fun t ht => ?_, ?_⟩
      · cases ht
        simp only [Option.map_some, traffic_light_init_x_length]
        exact pyOr_pos _ _ hUR.1
      · cases ht
        simp only [Option.map_some, traffic_light_init_y_length]
        exact pyOr_pos _ _ hLL.2
      · refine ⟨h1, ?_, ?_, h4⟩
        · show t2.x_length = (traffic_light.init (some t2.x_length) (some t1.y_length)
            none none none r).x_length
          rw [traffic_light_init_x_length, pyOr_pos _ _ hUR.1]
        · show t1.y_length = (traffic_light.init (some t2.x_length) (some t1.y_length)
            none none none r).y_length
          rw [traffic_light_init_y_length, pyOr_pos _ _ hLL.2]
  case upper_left =>
    simp only [city_map.segGet] at hnew
    subst hnew
    have hLLp := hpos Corner.lower_left
    have hURp := hpos Corner.upper_right
    simp only [city_map.segGet] at hLLp hURp
    simp only [city_map.get_current_traffic_light, city_map.segGet, city_map.xEdgeNeighbor,
      city_map.yEdgeNeighbor, city_map.segSet, lights_edge_matched]
    cases sur <;> cases sll
    · exact ⟨fun t ht => Option.noConfusion ht, fun t ht => Option.noConfusion ht,
        yEdge_ok_none_right _, h2, h3, xEdge_ok_none_right _⟩
    · next t1 =>
      refine ⟨fun t ht => ?_, fun t ht => Option.noConfusion ht, ?_⟩
      · cases ht
        simp only [Option.map_some, traffic_light_init_x_length]
        exact pyOr_pos _ _ hLLp.1
      · refine ⟨yEdge_ok_none_right _, h2, h3, ?_⟩
        show (traffic_light.init (some t1.x_length) none none none none r).x_length = t1.x_length
        rw [traffic_light_init_x_length, pyOr_pos _ _ hLLp.1]
    · next t2 =>
      refine ⟨fun t ht => Option.noConfusion ht, fun t ht => ?_, ?_⟩
      · cases ht
        simp only [Option.map_some, traffic_light_init_y_length]
        exact pyOr_pos _ _ hURp.2
      · refine ⟨?_, h2, h3, xEdge_ok_none_right _⟩
        show (traffic_light.init none (some t2.y_length) none none none r).y_length = t2.y_length
        rw [traffic_light_init_y_length, pyOr_pos _ _ hURp.2]
    · next t2 t1 =>
      refine ⟨fun t ht => ?_, fun t ht => ?_, ?_⟩
      · cases ht
        simp only [Option.map_some, traffic_light_init_x_length]
        exact pyOr_pos _ _ hLLp.1
      · cases ht
        simp only [Option.map_some, traffic_light_init_y_length]
        exact pyOr_pos _ _ hURp.2
      · refine ⟨?_, h2, h3, ?_⟩
        · show (traffic_light.init (some t1.x_length) (some t2.y_length)
            none none none r).y_length = t2.y_length
          rw [traffic_light_init_y_length, pyOr_pos _ _ hURp.2]
        · show (traffic_light.init (some t1.x_length) (some t2.y_length)
            none none none r).x_length = t1.x_length
          rw [traffic_light_init_x_length, pyOr_pos _ _ hLLp.1]
  case upper_right =>
    simp only [city_map.segGet] at hnew
    subst hnew
    have hULp := hpos Corner.upper_left
    have hLRp := hpos Corner.lower_right
    simp only [city_map.segGet] at hULp hLRp
    simp only [city_map.get_current_traffic_light, city_map.segGet, city_map.xEdgeNeighbor,
      city_map.yEdgeNeighbor, city_map.segSet, lights_edge_matched]
    cases sul <;> cases slr
    · exact ⟨fun t ht => Option.noConfusion ht, fun t ht => Option.noConfusion ht,
        yEdge_ok_none_left _, xEdge_ok_none_right _, h3, h4⟩
    · next t2 =>
      refine ⟨fun t ht => ?_, fun t ht => Option.noConfusion ht, ?_⟩
      · cases ht
        simp only [Option.map_some, traffic_light_init_x_length]
        exact pyOr_pos _ _ hLRp.1
      · refine ⟨yEdge_ok_none_left _, ?_, h3, h4⟩
        show (traffic_light.init (some t2.x_length) none none none none r).x_length = t2.x_length
        rw [traffic_light_init_x_length, pyOr_pos _ _ hLRp.1]
    · next t1 =>
      refine ⟨fun t ht => Option.noConfusion ht, fun t ht => ?_, ?_⟩
      · cases ht
        simp only [Option.map_some, traffic_light_init_y_length]
        exact pyOr_pos _ _ hULp.2
      · refine ⟨?_, xEdge_ok_none_right _, h3, h4⟩
        show t1.y_length = (traffic_light.init none (some t1.y_length) none none none r).y_length
        rw [traffic_light_init_y_length, pyOr_pos _ _ hULp.2]
    · next t1 t2 =>
      refine ⟨fun t ht => ?_, fun t ht => ?_, ?_⟩
      · cases ht
        simp only [Option.map_some, traffic_light_init_x_length]
        exact pyOr_pos _ _ hLRp.1
      · cases ht
        simp only [Option.map_some, traffic_light_init_y_length]
        exact pyOr_pos _ _ hULp.2
      · refine ⟨?_, ?_, h3, h4⟩
        · show t1.y_length = (traffic_light.init (some t2.x_length) (some t1.y_length)
            none none none r).y_length
          rw [traffic_light_init_y_length, pyOr_pos _ _ hULp.2]
        · show (traffic_light.init (some t2.x_length) (some t1.y_length)
            none none none r).x_length = t2.x_length
          rw [traffic_light_init_x_length, pyOr_pos _ _ hLRp.1]
  case lower_left =>
    simp only [city_map.segGet] at hnew
    subst hnew
    have hULp := hpos Corner.upper_left
    have hLRp := hpos Corner.lower_right
    simp only [city_map.segGet] at hULp hLRp
    simp only [city_map.get_current_traffic_light, city_map.segGet, city_map.xEdgeNeighbor,
      city_map.yEdgeNeighbor, city_map.segSet, lights_edge_matched]
    cases sul <;> cases slr
    · exact ⟨fun t ht => Option.noConfusion ht, fun t ht => Option.noConfusion ht,
        h1, h2, yEdge_ok_none_right _, xEdge_ok_none_left _⟩
    · next t2 =>
      refine ⟨fun t ht => Option.noConfusion ht, fun t ht => ?_, ?_⟩
      · cases ht
        simp only [Option.map_some, traffic_light_init_y_length]
        exact pyOr_pos _ _ hLRp.2
      · refine ⟨h1, h2, ?_, xEdge_ok_none_left _⟩
        show (traffic_light.init none (some t2.y_length) none none none r).y_length = t2.y_length
        rw [traffic_light_init_y_length, pyOr_pos _ _ hLRp.2]
    · next t1 =>
      refine ⟨fun t ht => ?_, fun t ht => Option.noConfusion ht, ?_⟩
      · cases ht
        simp only [Option.map_some, traffic_light_init_x_length]
        exact pyOr_pos _ _ hULp.1
      · refine ⟨h1, h2, yEdge_ok_none_right _, ?_⟩
        show t1.x_length = (traffic_light.init (some t1.x_length) none none none none r).x_length
        rw [traffic_light_init_x_length, pyOr_pos _ _ hULp.1]
    · next t1 t2 =>
      refine ⟨fun t ht => ?_, fun t ht => ?_, ?_⟩
      · cases ht
        simp only [Option.map_some, traffic_light_init_x_length]
        exact pyOr_pos _ _ hULp.1
      · cases ht
        simp only [Option.map_some, traffic_light_init_y_length]
        exact pyOr_pos _ _ hLRp.2
      · refine ⟨h1, h2, ?_, ?_⟩
        · show (traffic_light.init (some t1.x_length) (some t2.y_length)
            none none none r).y_length = t2.y_length
          rw [traffic_light_init_y_length, pyOr_pos _ _ hLRp.2]
        · show t1.x_length = (traffic_light.init (some t1.x_length) (some t2.y_length)
            none none none r).x_length
          rw [traffic_light_init_x_length, pyOr_pos _ _ hULp.1]

/-- C6 witness: materializing at `lower_right` next to lights already
present at `lower_left` and `upper_right`. -/
theorem signal_edge_matching_witness :
    ((⟨10, 10, 1, 1, Corner.lower_right, EndReached.no, ⟨1, 1⟩,
        none, some ⟨7, 11, 61, 61, 0, 0⟩, some ⟨13, 17, 61, 61, 0, 0⟩, none⟩ :
        city_map).segGet Corner.lower_right = none
      ∧ lights_edge_matched
        ⟨10, 10, 1, 1, Corner.lower_right, EndReached.no, ⟨1, 1⟩,
          none, some ⟨7, 11, 61, 61, 0, 0⟩, some ⟨13, 17, 61, 61, 0, 0⟩, none⟩
      ∧ lights_len_pos
        ⟨10, 10, 1, 1, Corner.lower_right, EndReached.no, ⟨1, 1⟩,
          none, some ⟨7, 11, 61, 61, 0, 0⟩, some ⟨13, 17, 61, 61, 0, 0⟩, none⟩
      ∧ (0 : ℚ) < 20 ∧ (0 : ℚ) < 20)
    ∧ ((∀ t : traffic_light,
          (⟨10, 10, 1, 1, Corner.lower_right, EndReached.no, ⟨1, 1⟩,
            none, some ⟨7, 11, 61, 61, 0, 0⟩, some ⟨13, 17, 61, 61, 0, 0⟩, none⟩ :
            city_map).xEdgeNeighbor = some t →
          ((⟨10, 10, 1, 1, Corner.lower_right, EndReached.no, ⟨1, 1⟩,
            none, some ⟨7, 11, 61, 61, 0, 0⟩, some ⟨13, 17, 61, 61, 0, 0⟩, none⟩ :
            city_map).get_current_traffic_light ⟨20, 20, 61, 61, 0⟩).1.x_length = t.x_length)
      ∧ (∀ t : traffic_light,
          (⟨10, 10, 1, 1, Corner.lower_right, EndReached.no, ⟨1, 1⟩,
            none, some ⟨7, 11, 61, 61, 0, 0⟩, some ⟨13, 17, 61, 61, 0, 0⟩, none⟩ :
            city_map).yEdgeNeighbor = some t →
          ((⟨10, 10, 1, 1, Corner.lower_right, EndReached.no, ⟨1, 1⟩,
            none, some ⟨7, 11, 61, 61, 0, 0⟩, some ⟨13, 17, 61, 61, 0, 0⟩, none⟩ :
            city_map).get_current_traffic_light ⟨20, 20, 61, 61, 0⟩).1.y_length = t.y_length)
      ∧ lights_edge_matched
          ((⟨10, 10, 1, 1, Corner.lower_right, EndReached.no, ⟨1, 1⟩,
            none, some ⟨7, 11, 61, 61, 0, 0⟩, some ⟨13, 17, 61, 61, 0, 0⟩, none⟩ :
            city_map).get_current_traffic_light ⟨20, 20, 61, 61, 0⟩).2) :=
  ⟨⟨rfl,
      ⟨trivial, trivial, trivial, trivial⟩,
      fun c => by
        cases c
        · exact trivial
        · exact ⟨by norm_num, by norm_num⟩
        · exact ⟨by norm_num, by norm_num⟩
        · exact trivial,
      by norm_num, by norm_num⟩,
    signal_edge_matching
      ⟨10, 10, 1, 1, Corner.lower_right, EndReached.no, ⟨1, 1⟩,
        none, some ⟨7, 11, 61, 61, 0, 0⟩, some ⟨13, 17, 61, 61, 0, 0⟩, none⟩
      ⟨20, 20, 61, 61, 0⟩ rfl
      ⟨trivial, trivial, trivial, trivial⟩
      (fun c => by
        cases c
        · exact trivial
        · exact ⟨by norm_num, by norm_num⟩
        · exact ⟨by norm_num, by norm_num⟩
        · exact trivial)
      (by norm_num) (by norm_num)⟩
